import Mathlib

/-!
A shallow Lean 4 embedding of the simsy-reporting-sync worker
(`src/index.ts`, `src/sanitise.ts`, `src/supabase-client.ts`, `src/db.ts`,
`src/sync/{usage,endpoints,bundles}.ts`), together with theorems settling the
frozen claims about it.

Modelling conventions:
* JavaScript `string | null | undefined` values become `Option String`
  (`none` covers both `null` and `undefined`); JS string truthiness (`""` is
  falsy) is modelled explicitly wherever the code branches on a string.
* Timestamp *cursor* values (`created_at`, `updated_at`, `collected_at`, the
  wall-clock `now`) are modelled as `Nat`: ISO-8601 strings compare
  lexicographically exactly as the instants they denote, so an ordered
  abstraction is faithful for every comparison the code performs.
  Timestamp values the code manipulates *as text* (`timestamp`,
  `start_time`, `end_time`, `usage_date`) stay `String`s.
* A JS `Map` becomes an insertion-ordered association list
  (`List (String × String)`); `Map.set` overwrites in place, `Map.has` /
  `Map.get` look up the first (unique) binding.
* The PostgreSQL target tables become `List` s of row structures; a
  multi-row `INSERT ... ON CONFLICT ... DO UPDATE` statement first checks
  for duplicate dedup keys among its own `VALUES` tuples — PostgreSQL
  rejects such a statement ("ON CONFLICT DO UPDATE command cannot affect
  row a second time") — and otherwise folds its rows as single-row upserts,
  each conflicting row rewritten by exactly the field assignments of the
  statement's `DO UPDATE SET` list.
* `TENANT_NAME_MAP` is a plain JS object literal, so its bracket lookup is
  modelled with the prototype chain included: a key naming an
  `Object.prototype` member returns that truthy inherited member, not
  `undefined`.
* Network / database I/O cannot fail in a pure model, so each pipeline takes
  explicit fault parameters: an optional fetch error (the `FetchError` throw
  in `fetchAll`) and an optional failing write-chunk index (a chunk `INSERT`
  rejected by the target store); the `try/catch` wrappers of the sync
  functions and of `scheduled` are translated structurally around them.
-/

/-! ## JS string primitives

Structural (kernel-computable) models of the JavaScript string methods the
worker uses. They operate on `String.data`, the underlying character list,
and agree with `String.prototype.trim` / `toLowerCase` / `substring` on every
string the worker handles. -/

/-- JS `String.prototype.toLowerCase` (ASCII case mapping). -/
def jsToLower (s : String) : String := ⟨s.data.map Char.toLower⟩

/-- JS `String.prototype.trim`: strip leading and trailing whitespace. -/
def jsTrim (s : String) : String :=
  ⟨((s.data.dropWhile Char.isWhitespace).reverse.dropWhile Char.isWhitespace).reverse⟩

/-- JS `String.prototype.substring(0, n)`. -/
def jsTake (s : String) (n : Nat) : String := ⟨s.data.take n⟩

/-- JS object-key / `Map.get` lookup on an insertion-ordered association
list; returns the first (unique) binding. -/
def assocLookup (m : List (String × String)) (k : String) : Option String :=
  match m with
  | [] => none
  | (a, b) :: rest => if k = a then some b else assocLookup rest k

/-- JS `Map.has`. -/
def jsMapHas (m : List (String × String)) (k : String) : Bool :=
  (assocLookup m k).isSome

/-- JS `Map.set`: overwrite the binding in place if the key exists, else
append it (insertion order preserved, as iteration order matters). -/
def jsMapSet (m : List (String × String)) (k v : String) : List (String × String) :=
  if jsMapHas m k then m.map (fun p => if p.1 = k then (p.1, v) else p)
  else m ++ [(k, v)]

/-! ## sanitise.ts -/

/-- `TENANT_NAME_MAP` from `src/sanitise.ts`: normalised tenant-name variant →
canonical tenant id, in source order. -/
def tenantNameMap : List (String × String) :=
  [("allsee technologies limited", "allsee"),
   ("allsee technologies", "allsee"),
   ("allsee", "allsee"),
   ("cellular-lan", "cellular-lan"),
   ("cellularlan", "cellular-lan"),
   ("cellular lan", "cellular-lan"),
   ("simsy_application", "simsy-app"),
   ("simsy application", "simsy-app"),
   ("s-imsy", "simsy-app"),
   ("simsy", "simsy-app"),
   ("travel-simsy", "travel-simsy"),
   ("travel simsy", "travel-simsy"),
   ("travelsimsy", "travel-simsy"),
   ("trvllr", "trvllr"),
   ("dave (testing)", "simsy-app"),
   ("dave testing", "simsy-app")]

/-- The `canonical` array inside `resolveTenantId` (`src/sanitise.ts`). -/
def canonicalTenantIds : List String :=
  ["allsee", "cellular-lan", "simsy-app", "travel-simsy", "trvllr"]

/-- What a JS bracket lookup on the `TENANT_NAME_MAP` object literal can
produce: one of the literal's own string values, or a member inherited from
`Object.prototype` (a function, or the `Object.prototype` object itself for
the `__proto__` accessor). -/
inductive JsLookupValue where
  | str (v : String)
  | inherited (name : String)
  deriving DecidableEq

/-- The property names every plain object literal inherits from
`Object.prototype` (ECMA-262): bracket lookup with one of these keys hits
the prototype chain instead of returning `undefined`. After the code's
`toLowerCase` normalisation only the all-lowercase `"constructor"` and
`"__proto__"` remain reachable. -/
def objectPrototypeKeys : List String :=
  ["constructor", "hasOwnProperty", "isPrototypeOf", "propertyIsEnumerable",
   "toLocaleString", "toString", "valueOf",
   "__defineGetter__", "__defineSetter__", "__lookupGetter__", "__lookupSetter__",
   "__proto__"]

/-- `TENANT_NAME_MAP[normalised]`: a JS object-literal bracket lookup — an
own entry if the key is one of the literal's, otherwise the inherited
`Object.prototype` member of that name, otherwise `undefined`. -/
def jsRecordLookup (m : List (String × String)) (k : String) : Option JsLookupValue :=
  match assocLookup m k with
  | some v => some (JsLookupValue.str v)
  | none =>
    if objectPrototypeKeys.contains k then some (JsLookupValue.inherited k) else none

/-- JS truthiness of a bracket-lookup result: `undefined` and `""` are
falsy; inherited members are functions or objects, always truthy. -/
def jsLookupTruthy : Option JsLookupValue → Bool
  | none => false
  | some (JsLookupValue.str v) => if v = "" then false else true
  | some (JsLookupValue.inherited _) => true

/-- `String(v)` — the coercion `esc` applies when a resolved value is
embedded into a SQL `VALUES` literal. `Object.prototype.constructor` is the
`Object` function; the `__proto__` accessor yields the `Object.prototype`
object; the remaining inherited members are named native functions. -/
def jsStringCoerce : JsLookupValue → String
  | JsLookupValue.str v => v
  | JsLookupValue.inherited "constructor" => "function Object() { [native code] }"
  | JsLookupValue.inherited "__proto__" => "[object Object]"
  | JsLookupValue.inherited name => "function " ++ name ++ "() { [native code] }"

/-- The first step of `resolveTenantId`: the `if (tenantName)` block,
looking the normalised `tenant_name` up in the synonym table and returning
the looked-up value when it is truthy. `none` models both `null` and
`undefined`; the JS truthiness guard also rejects `""`. -/
def resolveFromName (tenantName : Option String) : Option JsLookupValue :=
  match tenantName with
  | some tn =>
    if tn = "" then none
    else
      let r := jsRecordLookup tenantNameMap (jsToLower (jsTrim tn))
      if jsLookupTruthy r then r else none
  | none => none

/-- The fallback step of `resolveTenantId`: the `if (tenantId)` block —
the synonym-table lookup first, then the `Array.includes` check against the
canonical id list (a real array method, no prototype-chain surprise). -/
def resolveFromId (tenantId : Option String) : Option JsLookupValue :=
  match tenantId with
  | some ti =>
    if ti = "" then none
    else
      let normalised := jsToLower (jsTrim ti)
      let r := jsRecordLookup tenantNameMap normalised
      if jsLookupTruthy r then r
      else if canonicalTenantIds.contains normalised then
        some (JsLookupValue.str normalised)
      else none
  | none => none

/-- `resolveTenantId(tenantName, tenantId)` from `src/sanitise.ts` with its
raw JS result: try the `tenant_name` synonym lookup, then fall back to the
`tenant_id` cascade. Because `TENANT_NAME_MAP` is a plain object literal,
a normalised input naming an `Object.prototype` member returns that truthy
inherited member instead of a tenant id. -/
def resolveTenantIdJs (tenantName tenantId : Option String) : Option JsLookupValue :=
  match resolveFromName tenantName with
  | some v => some v
  | none => resolveFromId tenantId

/-- `resolveTenantId` as its callers observe it. Every pipeline call site
either tests the result's truthiness (`if (!tenantId) continue` …) — which
agrees with `isSome` here because both steps already gate on truthiness and
the canonical branch returns a non-empty string — or embeds the raw value
into a SQL `VALUES` literal through `esc`'s `String(v)` coercion, modelled
by `jsStringCoerce`. -/
def resolveTenantId (tenantName tenantId : Option String) : Option String :=
  (resolveTenantIdJs tenantName tenantId).map jsStringCoerce

/-- JS `x || ''` on a nullable string (used by `buildBundleInstanceSourceId`). -/
def jsOrEmpty : Option String → String
  | some s => s
  | none => ""

/-- `buildBundleInstanceSourceId(bundleInstanceId, iccid, startTime)` from
`src/sanitise.ts`: `[a || '', b || '', c || ''].join('|')`. Total on all
(possibly null) inputs. -/
def buildBundleInstanceSourceId (bundleInstanceId iccid startTime : Option String) : String :=
  jsOrEmpty bundleInstanceId ++ "|" ++ jsOrEmpty iccid ++ "|" ++ jsOrEmpty startTime

/-- JS `a || b` on nullable strings (empty string is falsy). -/
def jsOrStr : Option String → Option String → Option String
  | some s, b => if s = "" then b else some s
  | none, b => b

/-! ## supabase-client.ts — `fetchAll` -/

/-- The server-side watermark filter `?watermarkColumn=gt.{watermark}`
applied by PostgREST before paging: rows whose watermark column is null or
not strictly greater than the cursor are excluded. With no watermark the row
list is returned as-is. -/
def serverFilter {R : Type} (wmKey : R → Option Nat) (wm : Option Nat) (rows : List R) : List R :=
  match wm with
  | none => rows
  | some w => rows.filter (fun r =>
      match wmKey r with
      | some c => decide (w < c)
      | none => false)

/-- The `maxRecords && allRecords.length >= maxRecords` guard of `fetchAll`
(`src/supabase-client.ts`). `none` models an absent option; `some 0` is falsy
in JS, hence never hit. -/
def maxRecordsHit (maxRecords : Option Nat) (len : Nat) : Bool :=
  match maxRecords with
  | none => false
  | some m => if m = 0 then false else decide (m ≤ len)

/-- The `while (hasMore)` pagination loop of `fetchAll`
(`src/supabase-client.ts`): request the page at `offset`, append it, then
stop when (a) `maxRecords` is reached, (b) the server-reported exact total
(`rows.length`) is exhausted, (c) the page was short, or (d) the advanced
offset passes the 1 000 000 safety ceiling. `fuel` is a termination bound
only; the wrapper supplies more fuel than the loop can consume whenever
`batchSize ≥ 1`. -/
def fetchAllGo {R : Type} (rows : List R) (batchSize : Nat) (maxRecords : Option Nat) :
    Nat → Nat → List R → List R
  | 0, _, acc => acc
  | fuel + 1, offset, acc =>
    let page := (rows.drop offset).take batchSize
    let acc' := acc ++ page
    if maxRecordsHit maxRecords acc'.length then acc'
    else if rows.length ≤ offset + batchSize then acc'
    else if page.length < batchSize then acc'
    else if 1000000 < offset + batchSize then acc'
    else fetchAllGo rows batchSize maxRecords fuel (offset + batchSize) acc'

/-- `SupabaseClient.fetchAll` (`src/supabase-client.ts`): watermark-filtered,
paginated fetch. `rows0` is the source table's row list in the server's
`orderBy`-ascending order; `wmKey` reads the designated watermark column. -/
def fetchAll {R : Type} (rows0 : List R) (wmKey : R → Option Nat) (wm : Option Nat)
    (batchSize : Nat) (maxRecords : Option Nat) : List R :=
  let rows := serverFilter wmKey wm rows0
  fetchAllGo rows batchSize maxRecords (rows.length + 1) 0 []

example : resolveTenantId (some " ALLSEE Technologies Limited ") none = some "allsee" := by decide
example : resolveTenantId none (some "simsy") = some "simsy-app" := by decide
example : resolveTenantId (some "Foo Corp") none = none := by decide
example : fetchAll [1, 2, 3, 4] (fun n => some n) none 2 (some 3) = [1, 2, 3, 4] := by decide

/-! ## types.ts — source record shapes

One structure per Supabase source table, with the columns the worker ever
selects. Cursor columns are `Nat` (or `Option Nat` when nullable); columns
the code handles as text stay `Option String`; numeric measures are `Int`. -/

/-- A `custom_usage_reports` row (the `SupabaseUsageRecord` interface),
restricted to the worker's `SELECT_COLUMNS`. -/
structure SupabaseUsageRecord where
  id : String
  created_at : Option Nat
  tenant_name : Option String
  customer_name : Option String
  endpoint_name : Option String
  endpoint_description : Option String
  iccid : Option String
  timestamp : Option String
  service_type : Option String
  charge_type : Option String
  consumption : Option Int
  charged_consumption : Option Int
  uplink_bytes : Option Int
  downlink_bytes : Option Int
  bundle_name : Option String
  bundle_moniker : Option String
  status_moniker : Option String
  rat_type_moniker : Option String
  serving_operator_name : Option String
  serving_operator_tadig : Option String
  buy_rating_charge : Option Int
  buy_rating_currency : Option String
  sell_rating_charge : Option Int
  sell_rating_currency : Option String
  deriving DecidableEq

/-- An `endpoints` row (the `SupabaseEndpointRecord` interface). `iccid` is
in the source table and is selected only by `buildIccidTenantMap`
(`select: 'iccid,tenant_id'`); `syncEndpoints` deliberately never selects
it. -/
structure SupabaseEndpointRecord where
  id : String
  endpoint_identifier : String
  endpoint_name : Option String
  endpoint_type : Option String
  endpoint_type_name : Option String
  status : Option String
  endpoint_status_name : Option String
  endpoint_network_status_name : Option String
  tenant_id : Option String
  customer_id : Option String
  iccid : Option String
  usage_rolling_24h : Option Int
  usage_rolling_7d : Option Int
  usage_rolling_28d : Option Int
  usage_rolling_1y : Option Int
  charge_rolling_24h : Option Int
  charge_rolling_7d : Option Int
  charge_rolling_28d : Option Int
  charge_rolling_1y : Option Int
  first_activity : Option Nat
  latest_activity : Option Nat
  created_at : Nat
  updated_at : Nat
  deriving DecidableEq

/-- A `bundle_instances_report` row (the `SupabaseBundleInstanceRecord`
interface). -/
structure SupabaseBundleInstanceRecord where
  id : String
  created_at : Nat
  tenant_id : Option String
  tenant_name : Option String
  customer_id : Option String
  customer_name : Option String
  endpoint_name : Option String
  iccid : Option String
  bundle_name : Option String
  bundle_moniker : Option String
  bundle_instance_id : Option String
  start_time : Option String
  end_time : Option String
  status_name : Option String
  status_moniker : Option String
  sequence : Option Int
  sequence_max : Option Int
  deriving DecidableEq

/-- An `active_bundles` row (the `SupabaseBundleRecord` interface). `iccid`
is in the source table and is selected only by `buildIccidTenantMap`
(`select: 'iccid,tenant_name'`); `syncBundles` deliberately never selects
it. -/
structure SupabaseBundleRecord where
  id : String
  bundle_id : String
  bundle_name : String
  bundle_moniker : String
  status_name : Option String
  status_moniker : Option String
  tenant_name : Option String
  iccid : Option String
  start_time : Option String
  end_time : Option String
  collected_at : Option Nat
  deriving DecidableEq

/-- `SyncResult` from `types.ts`. Wall-clock durations are not modelled and
are fixed at `0`. -/
structure SyncResult where
  table : String
  recordsSynced : Nat
  duration : Nat
  error : Option String
  deriving DecidableEq

/-! ## Target rows (001-init.sql / 006 migration schemas)

One structure per reporting table, with the columns the worker writes or
reads. The surrogate `id UUID` primary keys are not modelled; rows are
identified by each table's dedup key. -/

/-- A `rpt_usage` row. `bundle_instance_id` / `sequence` / `sequence_max`
exist in the schema (migration 006) and are read by the backfill, but
`syncUsage`'s `INSERT` never populates them; `created_at` is carried on the
mapped record (`MappedRow.created_at`) but is not a target column and is
never written or updated. -/
structure RptUsageRow where
  source_id : String
  tenant_id : String
  customer_name : Option String
  endpoint_name : Option String
  endpoint_description : Option String
  iccid : Option String
  timestamp : Option String
  usage_date : Option String
  service_type : Option String
  charge_type : Option String
  consumption : Option Int
  charged_consumption : Option Int
  uplink_bytes : Option Int
  downlink_bytes : Option Int
  bundle_name : Option String
  bundle_moniker : Option String
  status_moniker : Option String
  rat_type_moniker : Option String
  serving_operator_name : Option String
  serving_country_name : Option String
  serving_country_iso2 : Option String
  buy_charge : Option Int
  buy_currency : Option String
  sell_charge : Option Int
  sell_currency : Option String
  created_at : Option Nat
  bundle_instance_id : Option String
  sequence : Option Int
  sequence_max : Option Int
  synced_at : Nat
  deriving DecidableEq

/-- A `rpt_endpoints` row. -/
structure RptEndpointRow where
  source_id : String
  tenant_id : String
  customer_id : Option String
  endpoint_name : Option String
  endpoint_type : Option String
  endpoint_type_name : Option String
  status : Option String
  endpoint_status_name : Option String
  network_status_name : Option String
  usage_rolling_24h : Option Int
  usage_rolling_7d : Option Int
  usage_rolling_28d : Option Int
  usage_rolling_1y : Option Int
  charge_rolling_24h : Option Int
  charge_rolling_7d : Option Int
  charge_rolling_28d : Option Int
  charge_rolling_1y : Option Int
  first_activity : Option Nat
  latest_activity : Option Nat
  synced_at : Nat
  deriving DecidableEq

/-- A `rpt_bundle_instances` row. `data_used_mb` is written only by the
backfill pass; `data_allowance_mb` is never written by this worker. -/
structure RptInstanceRow where
  source_id : String
  tenant_id : String
  customer_name : Option String
  endpoint_name : Option String
  iccid : Option String
  bundle_name : Option String
  bundle_moniker : Option String
  bundle_instance_id : Option String
  start_time : Option String
  end_time : Option String
  status_name : Option String
  status_moniker : Option String
  sequence : Option Int
  sequence_max : Option Int
  data_used_mb : Option Int
  data_allowance_mb : Option Int
  synced_at : Nat
  deriving DecidableEq

/-- A `rpt_bundles` row. -/
structure RptBundleRow where
  source_id : String
  tenant_id : String
  bundle_name : Option String
  bundle_moniker : Option String
  description : Option String
  price : Option Int
  currency : Option String
  formatted_price : Option String
  allowance : Option Int
  allowance_moniker : Option String
  bundle_type_name : Option String
  offer_type_name : Option String
  status_name : Option String
  effective_from : Option String
  effective_to : Option String
  synced_at : Nat
  deriving DecidableEq

/-! ## BulkUpsertWriter — chunked multi-row upserts -/

/-- `BULK_INSERT_SIZE` (500 rows per `INSERT`, shared by all four syncs). -/
def BULK_INSERT_SIZE : Nat := 500

/-- `MAX_RECORDS_PER_RUN` from `src/sync/usage.ts`. -/
def MAX_RECORDS_PER_RUN : Nat := 50000

/-- The `for (let i = 0; i < mapped.length; i += BULK_INSERT_SIZE)` slicing:
split a list into chunks of `BULK_INSERT_SIZE`. Fuel-based so the kernel can
evaluate it; `l.length + 1` fuel always suffices. -/
def chunkedGo {α : Type} : Nat → List α → List (List α)
  | 0, _ => []
  | _, [] => []
  | fuel + 1, l@(_ :: _) =>
    l.take BULK_INSERT_SIZE :: chunkedGo fuel (l.drop BULK_INSERT_SIZE)

/-- Split a mapped-row list into write chunks of `BULK_INSERT_SIZE`. -/
def chunked {α : Type} (l : List α) : List (List α) := chunkedGo (l.length + 1) l

/-- One row of an `INSERT ... ON CONFLICT (key) DO UPDATE` statement:
if a row with the same dedup key exists it is rewritten by `update old new`
(the statement's `DO UPDATE SET` list), otherwise the new row is appended. -/
def upsertRow {ρ κ : Type} [DecidableEq κ] (key : ρ → κ) (update : ρ → ρ → ρ)
    (tbl : List ρ) (r : ρ) : List ρ :=
  if tbl.any (fun x => decide (key x = key r)) then
    tbl.map (fun x => if key x = key r then update x r else x)
  else tbl ++ [r]

/-- Whether a chunk's `VALUES` list proposes two rows with the same dedup
key. PostgreSQL rejects such a multi-row `INSERT … ON CONFLICT DO UPDATE`
statement outright, whatever the table already contains. -/
def chunkDuplicateKey {ρ κ : Type} [DecidableEq κ] (key : ρ → κ) : List ρ → Bool
  | [] => false
  | r :: rest => rest.any (fun x => decide (key x = key r)) || chunkDuplicateKey key rest

/-- The error PostgreSQL raises for a multi-row upsert whose `VALUES` list
contains duplicate constrained values. -/
def PG_CARDINALITY_MSG : String :=
  "ON CONFLICT DO UPDATE command cannot affect row a second time"

/-- One chunk's multi-row upsert statement: if two proposed rows share the
dedup key the whole statement is rejected with PostgreSQL's
cannot-affect-row-a-second-time error and the table is unchanged; otherwise
each row either rewrites its conflicting row or is appended. -/
def upsertChunk {ρ κ : Type} [DecidableEq κ] (key : ρ → κ) (update : ρ → ρ → ρ)
    (tbl : List ρ) (chunk : List ρ) : Except String (List ρ) :=
  if chunkDuplicateKey key chunk then Except.error PG_CARDINALITY_MSG
  else Except.ok (chunk.foldl (upsertRow key update) tbl)

/-- The chunked write loop shared by all syncs: write chunks in order,
accumulating `recordsSynced += chunk.length` after each statement. A write
fault at chunk index `i` (an `INSERT` rejected by the target store) or a
statement the store itself rejects (duplicate dedup keys in one `VALUES`
list) aborts the remaining chunks, keeping the chunks already committed and
the partial count — there is no cross-chunk transaction. -/
def writeChunksGo {ρ : Type} (write : List ρ → List ρ → Except String (List ρ))
    (writeFail : Option (Nat × String)) :
    List (List ρ) → Nat → List ρ → Nat → List ρ × Nat × Option String
  | [], _, tbl, synced => (tbl, synced, none)
  | c :: cs, idx, tbl, synced =>
    match writeFail with
    | some (i, msg) =>
      if i = idx then (tbl, synced, some msg)
      else
        match write tbl c with
        | Except.error msg2 => (tbl, synced, some msg2)
        | Except.ok tbl2 => writeChunksGo write writeFail cs (idx + 1) tbl2 (synced + c.length)
    | none =>
      match write tbl c with
      | Except.error msg2 => (tbl, synced, some msg2)
      | Except.ok tbl2 => writeChunksGo write writeFail cs (idx + 1) tbl2 (synced + c.length)

/-- Write all chunks starting from chunk index 0 with no records synced. -/
def writeChunks {ρ : Type} (write : List ρ → List ρ → Except String (List ρ))
    (writeFail : Option (Nat × String)) (chunks : List (List ρ)) (tbl : List ρ) :
    List ρ × Nat × Option String :=
  writeChunksGo write writeFail chunks 0 tbl 0

/-! ### Per-table `DO UPDATE SET` lists and dedup keys -/

/-- `rpt_usage` conflict action (`src/sync/usage.ts`, `ON CONFLICT
(source_id) DO UPDATE SET tenant_id, customer_name, bundle_name,
bundle_moniker, status_moniker, synced_at`). -/
def rptUsageOnConflict (old new : RptUsageRow) : RptUsageRow :=
  { old with
    tenant_id := new.tenant_id
    customer_name := new.customer_name
    bundle_name := new.bundle_name
    bundle_moniker := new.bundle_moniker
    status_moniker := new.status_moniker
    synced_at := new.synced_at }

/-- `rpt_usage` upsert of one chunk, keyed on `source_id`. -/
def rptUsageWrite (tbl chunk : List RptUsageRow) : Except String (List RptUsageRow) :=
  upsertChunk (fun r => r.source_id) rptUsageOnConflict tbl chunk

/-- `rpt_endpoints` conflict action (`src/sync/endpoints.ts`, `ON CONFLICT
(source_id, tenant_id) DO UPDATE SET endpoint_name, status,
endpoint_status_name, network_status_name, usage_rolling_*, charge_rolling_*,
latest_activity, synced_at`). -/
def rptEndpointsOnConflict (old new : RptEndpointRow) : RptEndpointRow :=
  { old with
    endpoint_name := new.endpoint_name
    status := new.status
    endpoint_status_name := new.endpoint_status_name
    network_status_name := new.network_status_name
    usage_rolling_24h := new.usage_rolling_24h
    usage_rolling_7d := new.usage_rolling_7d
    usage_rolling_28d := new.usage_rolling_28d
    usage_rolling_1y := new.usage_rolling_1y
    charge_rolling_24h := new.charge_rolling_24h
    charge_rolling_7d := new.charge_rolling_7d
    charge_rolling_28d := new.charge_rolling_28d
    charge_rolling_1y := new.charge_rolling_1y
    latest_activity := new.latest_activity
    synced_at := new.synced_at }

/-- `rpt_endpoints` upsert of one chunk, keyed on `(source_id, tenant_id)`. -/
def rptEndpointsWrite (tbl chunk : List RptEndpointRow) : Except String (List RptEndpointRow) :=
  upsertChunk (fun r => (r.source_id, r.tenant_id)) rptEndpointsOnConflict tbl chunk

/-- `rpt_bundle_instances` conflict action (`src/sync/bundles.ts`
`syncInstances`, `ON CONFLICT (source_id) DO UPDATE SET status_name,
status_moniker, end_time, synced_at`). -/
def rptInstancesOnConflict (old new : RptInstanceRow) : RptInstanceRow :=
  { old with
    status_name := new.status_name
    status_moniker := new.status_moniker
    end_time := new.end_time
    synced_at := new.synced_at }

/-- `rpt_bundle_instances` upsert of one chunk, keyed on `source_id`. -/
def rptInstancesWrite (tbl chunk : List RptInstanceRow) : Except String (List RptInstanceRow) :=
  upsertChunk (fun r => r.source_id) rptInstancesOnConflict tbl chunk

/-- `rpt_bundles` conflict action (`src/sync/bundles.ts` `syncBundles`,
`ON CONFLICT (source_id) DO UPDATE SET bundle_name, status_name,
effective_to, synced_at`). -/
def rptBundlesOnConflict (old new : RptBundleRow) : RptBundleRow :=
  { old with
    bundle_name := new.bundle_name
    status_name := new.status_name
    effective_to := new.effective_to
    synced_at := new.synced_at }

/-- `rpt_bundles` upsert of one chunk, keyed on `source_id`. -/
def rptBundlesWrite (tbl chunk : List RptBundleRow) : Except String (List RptBundleRow) :=
  upsertChunk (fun r => r.source_id) rptBundlesOnConflict tbl chunk

/-! ## Source / target database state -/

/-- The Supabase source tables the worker reads. Each list is in the
server's returned (ascending cursor) order. -/
structure SourceDb where
  endpoints : List SupabaseEndpointRecord
  bundle_instances_report : List SupabaseBundleInstanceRecord
  custom_usage_reports : List SupabaseUsageRecord
  active_bundles : List SupabaseBundleRecord
  deriving DecidableEq

/-- The PostgreSQL reporting tables the worker writes. -/
structure ReportDb where
  rpt_endpoints : List RptEndpointRow
  rpt_bundle_instances : List RptInstanceRow
  rpt_usage : List RptUsageRow
  rpt_bundles : List RptBundleRow
  deriving DecidableEq

/-! ## usage.ts — `buildIccidTenantMap` (IccidLookupBuilder)

The builder fetches three fallback sources without a watermark and folds
them into one insertion-ordered ICCID→tenant map. A caught fetch failure of
the secondary or tertiary source skips that source, which is observationally
the same as that source being empty, so the fault-free model loses no
generality for the theorems below (they quantify over the source lists). -/

/-- One iteration of the `endpoints` loop of `buildIccidTenantMap`. Rows
missing either field (or with an empty-string field, JS-falsy) are skipped;
`Map.set` is called unconditionally for every resolvable row, so a later
row with the same trimmed ICCID overwrites an earlier one. -/
def primaryIccidStep (m : List (String × String)) (ep : SupabaseEndpointRecord) :
    List (String × String) :=
  match ep.iccid, ep.tenant_id with
  | some ic, some tid =>
    if ic = "" ∨ tid = "" then m
    else
      let normalised := jsTrim ic
      match resolveTenantId none (some tid) with
      | some tenantId => if normalised = "" then m else jsMapSet m normalised tenantId
      | none => m
  | _, _ => m

/-- Phase 1 of `buildIccidTenantMap` over the whole `endpoints` fetch. -/
def primaryIccidPhase (endpoints : List SupabaseEndpointRecord) : List (String × String) :=
  endpoints.foldl primaryIccidStep []

/-- One iteration of the `bundle_instances_report` loop of
`buildIccidTenantMap`. Gap-filling only — an ICCID already in the map is
skipped before resolution. -/
def secondaryIccidStep (m : List (String × String)) (inst : SupabaseBundleInstanceRecord) :
    List (String × String) :=
  match inst.iccid with
  | some ic =>
    if ic = "" then m
    else
      let normalised := jsTrim ic
      if jsMapHas m normalised then m
      else
        match resolveTenantId inst.tenant_name inst.tenant_id with
        | some tenantId => jsMapSet m normalised tenantId
        | none => m
  | none => m

/-- Phase 2 of `buildIccidTenantMap` over the whole
`bundle_instances_report` fetch. -/
def secondaryIccidPhase (instances : List SupabaseBundleInstanceRecord)
    (m0 : List (String × String)) : List (String × String) :=
  instances.foldl secondaryIccidStep m0

/-- One iteration of the `active_bundles` loop of `buildIccidTenantMap`
(ordered by `collected_at`), same gap-filling rule, resolving from
`tenant_name` only. -/
def tertiaryIccidStep (m : List (String × String)) (b : SupabaseBundleRecord) :
    List (String × String) :=
  match b.iccid with
  | some ic =>
    if ic = "" then m
    else
      let normalised := jsTrim ic
      if jsMapHas m normalised then m
      else
        match resolveTenantId b.tenant_name none with
        | some tenantId => jsMapSet m normalised tenantId
        | none => m
  | none => m

/-- Phase 3 of `buildIccidTenantMap` over the whole `active_bundles`
fetch. -/
def tertiaryIccidPhase (bundles : List SupabaseBundleRecord)
    (m0 : List (String × String)) : List (String × String) :=
  bundles.foldl tertiaryIccidStep m0

/-- `tenantCounts.set(tenant, (tenantCounts.get(tenant) || 0) + 1)`. -/
def bumpCount (counts : List (String × Nat)) (t : String) : List (String × Nat) :=
  if counts.any (fun p => decide (p.1 = t)) then
    counts.map (fun p => if p.1 = t then (p.1, p.2 + 1) else p)
  else counts ++ [(t, 1)]

/-- Group the exact map's entries by 12-character ICCID prefix, tallying
tenant occurrence counts per prefix (insertion-ordered, as in the JS `Map`
of `Map`s). -/
def prefixTally (m : List (String × String)) : List (String × List (String × Nat)) :=
  m.foldl (fun acc e =>
    let pfx := jsTake e.1 12
    if acc.any (fun g => decide (g.1 = pfx)) then
      acc.map (fun g => if g.1 = pfx then (g.1, bumpCount g.2 e.2) else g)
    else acc ++ [(pfx, [(e.2, 1)])]) []

/-- Pick the dominant tenant of one prefix group: strictly higher count
wins, so the first-seen tenant wins ties; `""` when the group is empty. -/
def dominantTenant (counts : List (String × Nat)) : String :=
  (counts.foldl (fun best c => if best.2 < c.2 then c else best) ("", 0)).1

/-- Phase 4 of `buildIccidTenantMap`: the prefix→dominant-tenant fallback
map (`if (dominantTenant) { prefixTenantMap.set(prefix, dominantTenant) }`). -/
def buildPrefixTenantMap (m : List (String × String)) : List (String × String) :=
  (prefixTally m).foldl (fun pm g =>
    let d := dominantTenant g.2
    if d = "" then pm else jsMapSet pm g.1 d) []

/-- The `{ exactMap, prefixMap }` index returned by `buildIccidTenantMap`. -/
structure IccidTenantIndex where
  exactMap : List (String × String)
  prefixMap : List (String × String)
  deriving DecidableEq

/-- `buildIccidTenantMap(supabase)` from `src/sync/usage.ts`: fetch the
three fallback sources (no watermark, batch size 1000) and fold them in
fixed priority order, then derive the prefix fallback map. -/
def buildIccidTenantMap (src : SourceDb) : IccidTenantIndex :=
  let epRows := fetchAll src.endpoints (fun r => some r.updated_at) none 1000 none
  let m1 := primaryIccidPhase epRows
  let instRows := fetchAll src.bundle_instances_report (fun r => some r.created_at) none 1000 none
  let m2 := secondaryIccidPhase instRows m1
  let bRows := fetchAll src.active_bundles (fun r => r.collected_at) none 1000 none
  let m3 := tertiaryIccidPhase bRows m2
  { exactMap := m3, prefixMap := buildPrefixTenantMap m3 }

/-! ## usage.ts — `syncUsage` -/

/-- The tenant-resolution cascade of the `syncUsage` mapping loop:
`tenant_name` first, then the exact ICCID lookup on the trimmed ICCID, then
the 12-character-prefix fallback. -/
def resolveUsageTenant (idx : IccidTenantIndex) (r : SupabaseUsageRecord) : Option String :=
  match resolveTenantId r.tenant_name none with
  | some t => some t
  | none =>
    match r.iccid with
    | some ic =>
      if ic = "" then none
      else
        let normalised := jsTrim ic
        match assocLookup idx.exactMap normalised with
        | some t => some t
        | none => assocLookup idx.prefixMap (jsTake normalised 12)
    | none => none

/-- The body of the `syncUsage` mapping loop: resolve the tenant (skipping
the record when the cascade fails) and project onto the `MappedRow` shape.
`usage_date` is `timestamp.substring(0, 10)`; `serving_country_name` is
populated from `serving_operator_tadig`; the `|| null` projections turn
empty strings into SQL `NULL`. -/
def mapUsageRecord (idx : IccidTenantIndex) (dbNow : Nat) (r : SupabaseUsageRecord) :
    Option RptUsageRow :=
  match resolveUsageTenant idx r with
  | none => none
  | some tenantId =>
    some
      { source_id := r.id
        tenant_id := tenantId
        customer_name := jsOrStr r.customer_name none
        endpoint_name := jsOrStr r.endpoint_name none
        endpoint_description := jsOrStr r.endpoint_description none
        iccid := jsOrStr r.iccid none
        timestamp := jsOrStr r.timestamp none
        usage_date :=
          match r.timestamp with
          | some t => if t = "" then none else some (jsTake t 10)
          | none => none
        service_type := jsOrStr r.service_type none
        charge_type := jsOrStr r.charge_type none
        consumption := r.consumption
        charged_consumption := r.charged_consumption
        uplink_bytes := r.uplink_bytes
        downlink_bytes := r.downlink_bytes
        bundle_name := jsOrStr r.bundle_name none
        bundle_moniker := jsOrStr r.bundle_moniker none
        status_moniker := jsOrStr r.status_moniker none
        rat_type_moniker := jsOrStr r.rat_type_moniker none
        serving_operator_name := jsOrStr r.serving_operator_name none
        serving_country_name := jsOrStr r.serving_operator_tadig none
        serving_country_iso2 := none
        buy_charge := r.buy_rating_charge
        buy_currency := jsOrStr r.buy_rating_currency none
        sell_charge := r.sell_rating_charge
        sell_currency := jsOrStr r.sell_rating_currency none
        created_at := r.created_at
        bundle_instance_id := none
        sequence := none
        sequence_max := none
        synced_at := dbNow }

/-- The usage-records fetch of `syncUsage`: watermark column `created_at`,
capped at `MAX_RECORDS_PER_RUN`. -/
def usageFetch (src : SourceDb) (watermark : Option Nat) (batchSize : Nat) :
    List SupabaseUsageRecord :=
  fetchAll src.custom_usage_reports (fun r => r.created_at) watermark batchSize
    (some MAX_RECORDS_PER_RUN)

/-- The watermark values `syncUsage` hands to its `saveWatermark` callback,
in call order, on the success path: a single save of the last fetched
record's `created_at` after all chunks are written (skipped when that value
is null). -/
def usageSavedWatermarks (records : List SupabaseUsageRecord) : List Nat :=
  match records.getLast? with
  | some lastRecord =>
    match lastRecord.created_at with
    | some wm => [wm]
    | none => []
  | none => []

/-- `syncUsage(supabase, sql, watermark, batchSize, saveWatermark)` from
`src/sync/usage.ts`. Returns the updated `rpt_usage` table, the
`SyncResult`, and the list of watermark values passed to `saveWatermark`.
`fetchErr` models a thrown `FetchError` (from the usage fetch or the
builder's uncaught endpoints fetch); `writeFail` models a rejected chunk
`INSERT`; both land in the function's `catch`, which returns the partial
`recordsSynced` with the error message. -/
def syncUsage (src : SourceDb) (tbl : List RptUsageRow) (watermark : Option Nat)
    (batchSize : Nat) (dbNow : Nat) (fetchErr : Option String)
    (writeFail : Option (Nat × String)) :
    List RptUsageRow × SyncResult × List Nat :=
  match fetchErr with
  | some msg => (tbl, ⟨"rpt_usage", 0, 0, some msg⟩, [])
  | none =>
    let idx := buildIccidTenantMap src
    let records := usageFetch src watermark batchSize
    if records.isEmpty then (tbl, ⟨"rpt_usage", 0, 0, none⟩, [])
    else
      let mapped := records.filterMap (mapUsageRecord idx dbNow)
      if mapped.isEmpty then (tbl, ⟨"rpt_usage", 0, 0, none⟩, [])
      else
        match writeChunks rptUsageWrite writeFail (chunked mapped) tbl with
        | (tbl', synced, some msg) => (tbl', ⟨"rpt_usage", synced, 0, some msg⟩, [])
        | (tbl', synced, none) =>
          (tbl', ⟨"rpt_usage", synced, 0, none⟩, usageSavedWatermarks records)

/-! ## endpoints.ts — `syncEndpoints` -/

/-- The body of the `syncEndpoints` mapping loop: resolve tenant from
`tenant_id` only (skip on failure) and project, deriving the effective
status chain `status || endpoint_status_name || endpoint_network_status_name
|| null` and the effective status name `endpoint_status_name ||
endpoint_network_status_name || status || null`. -/
def mapEndpointRecord (dbNow : Nat) (r : SupabaseEndpointRecord) : Option RptEndpointRow :=
  match resolveTenantId none r.tenant_id with
  | none => none
  | some tenantId =>
    some
      { source_id := r.endpoint_identifier
        tenant_id := tenantId
        customer_id := r.customer_id
        endpoint_name := r.endpoint_name
        endpoint_type := r.endpoint_type
        endpoint_type_name := r.endpoint_type_name
        status := jsOrStr r.status (jsOrStr r.endpoint_status_name
          (jsOrStr r.endpoint_network_status_name none))
        endpoint_status_name := jsOrStr r.endpoint_status_name
          (jsOrStr r.endpoint_network_status_name (jsOrStr r.status none))
        network_status_name := r.endpoint_network_status_name
        usage_rolling_24h := r.usage_rolling_24h
        usage_rolling_7d := r.usage_rolling_7d
        usage_rolling_28d := r.usage_rolling_28d
        usage_rolling_1y := r.usage_rolling_1y
        charge_rolling_24h := r.charge_rolling_24h
        charge_rolling_7d := r.charge_rolling_7d
        charge_rolling_28d := r.charge_rolling_28d
        charge_rolling_1y := r.charge_rolling_1y
        first_activity := r.first_activity
        latest_activity := r.latest_activity
        synced_at := dbNow }

/-- `syncEndpoints(supabase, sql, watermark, batchSize)` from
`src/sync/endpoints.ts`: fetch on watermark column `updated_at` (no record
cap), map, then chunked upsert. -/
def syncEndpoints (src : SourceDb) (tbl : List RptEndpointRow) (watermark : Option Nat)
    (batchSize : Nat) (dbNow : Nat) (fetchErr : Option String)
    (writeFail : Option (Nat × String)) : List RptEndpointRow × SyncResult :=
  match fetchErr with
  | some msg => (tbl, ⟨"rpt_endpoints", 0, 0, some msg⟩)
  | none =>
    let records := fetchAll src.endpoints (fun r => some r.updated_at) watermark batchSize none
    if records.isEmpty then (tbl, ⟨"rpt_endpoints", 0, 0, none⟩)
    else
      let mapped := records.filterMap (mapEndpointRecord dbNow)
      if mapped.isEmpty then (tbl, ⟨"rpt_endpoints", 0, 0, none⟩)
      else
        match writeChunks rptEndpointsWrite writeFail (chunked mapped) tbl with
        | (tbl', synced, err) => (tbl', ⟨"rpt_endpoints", synced, 0, err⟩)

/-! ## bundles.ts — `syncInstances` and `syncBundles` -/

/-- The body of the `syncInstances` mapping loop: resolve tenant from
`tenant_name` then `tenant_id`, build the composite dedup key, and project
the raw fields (no `|| null` coercions here). -/
def mapInstanceRecord (dbNow : Nat) (r : SupabaseBundleInstanceRecord) :
    Option RptInstanceRow :=
  match resolveTenantId r.tenant_name r.tenant_id with
  | none => none
  | some tenantId =>
    some
      { source_id := buildBundleInstanceSourceId r.bundle_instance_id r.iccid r.start_time
        tenant_id := tenantId
        customer_name := r.customer_name
        endpoint_name := r.endpoint_name
        iccid := r.iccid
        bundle_name := r.bundle_name
        bundle_moniker := r.bundle_moniker
        bundle_instance_id := r.bundle_instance_id
        start_time := r.start_time
        end_time := r.end_time
        status_name := r.status_name
        status_moniker := r.status_moniker
        sequence := r.sequence
        sequence_max := r.sequence_max
        data_used_mb := none
        data_allowance_mb := none
        synced_at := dbNow }

/-- `syncInstances(supabase, sql, watermark, batchSize)` from
`src/sync/bundles.ts`: fetch on watermark column `created_at`, map, chunked
upsert keyed on the composite `source_id`. -/
def syncInstances (src : SourceDb) (tbl : List RptInstanceRow) (watermark : Option Nat)
    (batchSize : Nat) (dbNow : Nat) (fetchErr : Option String)
    (writeFail : Option (Nat × String)) : List RptInstanceRow × SyncResult :=
  match fetchErr with
  | some msg => (tbl, ⟨"rpt_bundle_instances", 0, 0, some msg⟩)
  | none =>
    let records := fetchAll src.bundle_instances_report (fun r => some r.created_at)
      watermark batchSize none
    if records.isEmpty then (tbl, ⟨"rpt_bundle_instances", 0, 0, none⟩)
    else
      let mapped := records.filterMap (mapInstanceRecord dbNow)
      if mapped.isEmpty then (tbl, ⟨"rpt_bundle_instances", 0, 0, none⟩)
      else
        match writeChunks rptInstancesWrite writeFail (chunked mapped) tbl with
        | (tbl', synced, err) => (tbl', ⟨"rpt_bundle_instances", synced, 0, err⟩)

/-- One step of the `syncBundles` dedup-and-map loop, carrying the `seen`
set of `bundle_id:tenant_id` keys and the mapped rows. Unresolvable tenants
are skipped; duplicate `(bundle_id, tenant)` pairs keep the first row. The
description/price/allowance/type columns are inserted as literal NULLs. -/
def syncBundlesStep (dbNow : Nat) (acc : List String × List RptBundleRow)
    (r : SupabaseBundleRecord) : List String × List RptBundleRow :=
  match resolveTenantId r.tenant_name none with
  | none => acc
  | some tenantId =>
    let dedup := r.bundle_id ++ ":" ++ tenantId
    if acc.1.contains dedup then acc
    else
      (acc.1 ++ [dedup],
       acc.2 ++
         [{ source_id := r.bundle_id
            tenant_id := tenantId
            bundle_name := some r.bundle_name
            bundle_moniker := some r.bundle_moniker
            description := none
            price := none
            currency := none
            formatted_price := none
            allowance := none
            allowance_moniker := none
            bundle_type_name := none
            offer_type_name := none
            status_name := r.status_name
            effective_from := r.start_time
            effective_to := r.end_time
            synced_at := dbNow }])

/-- `syncBundles(supabase, sql, watermark, batchSize)` from
`src/sync/bundles.ts`: fetch `active_bundles` ordered and filtered on
`collected_at`, dedup by `bundle_id:tenant`, chunked upsert. -/
def syncBundles (src : SourceDb) (tbl : List RptBundleRow) (watermark : Option Nat)
    (batchSize : Nat) (dbNow : Nat) (fetchErr : Option String)
    (writeFail : Option (Nat × String)) : List RptBundleRow × SyncResult :=
  match fetchErr with
  | some msg => (tbl, ⟨"rpt_bundles", 0, 0, some msg⟩)
  | none =>
    let records := fetchAll src.active_bundles (fun r => r.collected_at) watermark batchSize none
    if records.isEmpty then (tbl, ⟨"rpt_bundles", 0, 0, none⟩)
    else
      let mapped := (records.foldl (syncBundlesStep dbNow) ([], [])).2
      if mapped.isEmpty then (tbl, ⟨"rpt_bundles", 0, 0, none⟩)
      else
        match writeChunks rptBundlesWrite writeFail (chunked mapped) tbl with
        | (tbl', synced, err) => (tbl', ⟨"rpt_bundles", synced, 0, err⟩)

/-! ## db.ts — `backfillBundleUsage` (UsageBackfillReconciler) -/

/-- SQL `TRIM(s)`: strip leading/trailing space characters. -/
def sqlTrim (s : String) : String :=
  ⟨((s.data.dropWhile (· = ' ')).reverse.dropWhile (· = ' ')).reverse⟩

/-- SQL `LOWER(s)` (ASCII case mapping). -/
def sqlLower (s : String) : String := ⟨s.data.map Char.toLower⟩

/-- SQL `timestamp::date` on an ISO-8601 timestamp string: its date part. -/
def sqlDate (s : String) : String := ⟨s.data.take 10⟩

/-- Lexicographic `≤` on character lists — the order SQL uses on the
ISO-formatted date strings of the model. -/
def charListLe : List Char → List Char → Bool
  | [], _ => true
  | _ :: _, [] => false
  | a :: as, b :: bs =>
    if a < b then true else if b < a then false else charListLe as bs

/-- Lexicographic `≤` on strings. -/
def strLe (a b : String) : Bool := charListLe a.data b.data

/-- `ROUND(SUM(...) / (1024.0 * 1024.0))::BIGINT` for the non-negative sums
the backfill filters admit: byte total → MB, rounding half away from zero. -/
def roundMb (sumBytes : Int) : Int := (sumBytes + 524288) / 1048576

/-- `SUM(COALESCE(charged_consumption, 0))` over a list of usage rows. -/
def sumChargedConsumption (rows : List RptUsageRow) : Int :=
  rows.foldl (fun s u => s + u.charged_consumption.getD 0) 0

/-- The first `UPDATE` of `backfillBundleUsage`: trim whitespace off every
non-null `rpt_bundle_instances.iccid` (the `WHERE iccid != TRIM(iccid)`
clause only skips no-op writes). -/
def backfillTrimPhase (insts : List RptInstanceRow) : List RptInstanceRow :=
  insts.map (fun bi => { bi with iccid := bi.iccid.map sqlTrim })

/-- The reset `UPDATE`: null out every `data_used_mb` so each cycle
recomputes totals from current usage (the `WHERE ... IS NOT NULL` clause
only skips no-op writes). -/
def backfillReset (insts : List RptInstanceRow) : List RptInstanceRow :=
  insts.map (fun bi => { bi with data_used_mb := none })

/-- Whether a usage row belongs to an instance's exact-strategy group:
the subquery's `WHERE` filters (`iccid IS NOT NULL`,
`charged_consumption > 0`, `bundle_moniker IS NOT NULL`, `sequence IS NOT
NULL`) plus the join on `(TRIM(iccid), LOWER(bundle_moniker), sequence)`;
a null field on the instance side makes the SQL join predicate non-true. -/
def exactBackfillMatch (bi : RptInstanceRow) (u : RptUsageRow) : Bool :=
  match u.iccid, u.bundle_moniker, u.sequence, u.charged_consumption,
      bi.iccid, bi.bundle_moniker, bi.sequence with
  | some ui, some ub, some useq, some uc, some bic, some bb, some bseq =>
    decide (0 < uc) && decide (sqlTrim ui = sqlTrim bic) &&
      decide (sqlLower ub = sqlLower bb) && decide (useq = bseq)
  | _, _, _, _, _, _, _ => false

/-- Strategy 1 of `backfillBundleUsage` (ICCID + bundle moniker + sequence):
each instance with a non-empty matching usage group gets that group's
byte→MB-rounded sum. -/
def applyStrategy1 (usage : List RptUsageRow) (insts : List RptInstanceRow) :
    List RptInstanceRow :=
  insts.map (fun bi =>
    let rows := usage.filter (exactBackfillMatch bi)
    if rows.isEmpty then bi
    else { bi with data_used_mb := some (roundMb (sumChargedConsumption rows)) })

/-- Whether a usage row falls in an instance's date-range-strategy group:
`iccid IS NOT NULL`, `charged_consumption > 0`, ICCIDs equal after `TRIM`,
and `usage_date` within `[start_time::date, end_time::date]` (a null
`usage_date`, `iccid`, `start_time` or `end_time` makes the predicate
non-true, matching the SQL `NULL` comparisons and `IS NOT NULL` guards). -/
def rangeBackfillMatch (bi : RptInstanceRow) (u : RptUsageRow) : Bool :=
  match u.iccid, u.charged_consumption, u.usage_date,
      bi.iccid, bi.start_time, bi.end_time with
  | some ui, some uc, some ud, some bic, some bs, some be =>
    decide (0 < uc) && decide (sqlTrim ui = sqlTrim bic) &&
      strLe (sqlDate bs) ud && strLe ud (sqlDate be)
  | _, _, _, _, _, _ => false

/-- Strategy 2 of `backfillBundleUsage` (ICCID + date range): only instances
whose `data_used_mb` is still null (`bi2.data_used_mb IS NULL` in the join
and `bi.data_used_mb IS NULL` in the outer `WHERE`) and with a non-empty
matching usage group get the group's byte→MB-rounded sum. -/
def applyStrategy2 (usage : List RptUsageRow) (insts : List RptInstanceRow) :
    List RptInstanceRow :=
  insts.map (fun bi =>
    if bi.data_used_mb.isSome then bi
    else
      let rows := usage.filter (rangeBackfillMatch bi)
      if rows.isEmpty then bi
      else { bi with data_used_mb := some (roundMb (sumChargedConsumption rows)) })

/-- `backfillBundleUsage(sql)` from `src/db.ts`: trim instance ICCIDs, reset
all totals, then apply the exact strategy and the date-range strategy in
order. Its internal `try/catch` only logs, so it never throws into the
orchestrator. -/
def backfillBundleUsage (usage : List RptUsageRow) (insts : List RptInstanceRow) :
    List RptInstanceRow :=
  applyStrategy2 usage (applyStrategy1 usage (backfillReset (backfillTrimPhase insts)))

/-! ## index.ts — `scheduled` (SyncOrchestrator) -/

/-- The four per-table KV watermarks (`sync:watermark:*`), read once at run
start. -/
structure Watermarks where
  usage : Option Nat
  bundles : Option Nat
  instances : Option Nat
  endpoints : Option Nat
  deriving DecidableEq

/-- Injected I/O faults, one fetch error and one failing write-chunk index
per table pipeline; `none` everywhere models a fault-free run. -/
structure FaultModel where
  endpointsFetch : Option String
  endpointsWrite : Option (Nat × String)
  instancesFetch : Option String
  instancesWrite : Option (Nat × String)
  usageFetch : Option String
  usageWrite : Option (Nat × String)
  bundlesFetch : Option String
  bundlesWrite : Option (Nat × String)
  deriving DecidableEq

/-- A fault-free run. -/
def noFaults : FaultModel := ⟨none, none, none, none, none, none, none, none⟩

/-- What one `scheduled` run leaves behind: the `results` list and overall
status persisted to `sync:last_result`, the KV watermarks, the reporting
database, whether the backfill and view-refresh collaborators were invoked,
and the `sync:last_run` timestamp. -/
structure RunReport where
  results : List SyncResult
  status : String
  watermarks : Watermarks
  db : ReportDb
  backfillInvoked : Bool
  refreshInvoked : Bool
  lastRun : Option Nat
  deriving DecidableEq

/-- `scheduled(controller, env, ctx)` from `src/index.ts`. `now` is the
wall-clock ISO timestamp captured at run start (`new Date().toISOString()`);
`setupErr` models a client/connection-setup throw (before any table runs),
the only uncaught-exception path, which lands in the outer `catch` and
persists status `failed`. Each table's watermark is committed (to the value
`now`) only when its pipeline returned without error and synced at least one
record; the usage pipeline's `saveWatermark` callback writes its own values
and the orchestrator's own usage branch (src/index.ts:100-103) has an empty
body. The backfill and the materialised-view refresh (a no-op here: its
failures are caught internally per view) run after all four tables
unconditionally. -/
def scheduled (src : SourceDb) (db0 : ReportDb) (wms : Watermarks) (batchSize : Nat)
    (now : Nat) (setupErr : Option String) (faults : FaultModel) : RunReport :=
  match setupErr with
  | some _ =>
    { results := [], status := "failed", watermarks := wms, db := db0,
      backfillInvoked := false, refreshInvoked := false, lastRun := none }
  | none =>
    let epPair := syncEndpoints src db0.rpt_endpoints wms.endpoints batchSize now
      faults.endpointsFetch faults.endpointsWrite
    let instPair := syncInstances src db0.rpt_bundle_instances wms.instances batchSize now
      faults.instancesFetch faults.instancesWrite
    let usageTriple := syncUsage src db0.rpt_usage wms.usage batchSize now
      faults.usageFetch faults.usageWrite
    let bunPair := syncBundles src db0.rpt_bundles wms.bundles batchSize now
      faults.bundlesFetch faults.bundlesWrite
    let results := [epPair.2, instPair.2, usageTriple.2.1, bunPair.2]
    let inst2 := backfillBundleUsage usageTriple.1 instPair.1
    -- Each `SYNC_KV.put('sync:watermark:…')` touches a distinct key, so the
    -- run's sequential puts are presented field-wise: a table's cursor is
    -- replaced by `now` exactly under its commit guard, and the usage
    -- cursor by the values the `saveWatermark` callback wrote, in order.
    { results := results
      status := if (results.filter (fun r => r.error.isSome)).length ≠ 0 then "partial"
        else "success"
      watermarks :=
        { endpoints := if epPair.2.error = none ∧ 0 < epPair.2.recordsSynced then
            some now else wms.endpoints
          instances := if instPair.2.error = none ∧ 0 < instPair.2.recordsSynced then
            some now else wms.instances
          usage := usageTriple.2.2.foldl (fun _ v => some v) wms.usage
          bundles := if bunPair.2.error = none ∧ 0 < bunPair.2.recordsSynced then
            some now else wms.bundles }
      db := { rpt_endpoints := epPair.1, rpt_bundle_instances := inst2,
              rpt_usage := usageTriple.1, rpt_bundles := bunPair.1 }
      backfillInvoked := true
      refreshInvoked := true
      lastRun := some now }

/-! ## Concrete fixtures used by the claim theorems and witnesses -/

/-- An empty reporting database. -/
def emptyReportDb : ReportDb := ⟨[], [], [], []⟩

/-- No stored watermarks (first run). -/
def noWatermarks : Watermarks := ⟨none, none, none, none⟩

/-- A `custom_usage_reports` row with every nullable column null. -/
def blankUsageRecord : SupabaseUsageRecord :=
  { id := "", created_at := none, tenant_name := none, customer_name := none,
    endpoint_name := none, endpoint_description := none, iccid := none,
    timestamp := none, service_type := none, charge_type := none,
    consumption := none, charged_consumption := none, uplink_bytes := none,
    downlink_bytes := none, bundle_name := none, bundle_moniker := none,
    status_moniker := none, rat_type_moniker := none,
    serving_operator_name := none, serving_operator_tadig := none,
    buy_rating_charge := none, buy_rating_currency := none,
    sell_rating_charge := none, sell_rating_currency := none }

/-- An `endpoints` row with every nullable column null. -/
def blankEndpointRecord : SupabaseEndpointRecord :=
  { id := "", endpoint_identifier := "", endpoint_name := none,
    endpoint_type := none, endpoint_type_name := none, status := none,
    endpoint_status_name := none, endpoint_network_status_name := none,
    tenant_id := none, customer_id := none, iccid := none,
    usage_rolling_24h := none, usage_rolling_7d := none,
    usage_rolling_28d := none, usage_rolling_1y := none,
    charge_rolling_24h := none, charge_rolling_7d := none,
    charge_rolling_28d := none, charge_rolling_1y := none,
    first_activity := none, latest_activity := none,
    created_at := 0, updated_at := 0 }

/-- A `bundle_instances_report` row with every nullable column null. -/
def blankInstanceRecord : SupabaseBundleInstanceRecord :=
  { id := "", created_at := 0, tenant_id := none, tenant_name := none,
    customer_id := none, customer_name := none, endpoint_name := none,
    iccid := none, bundle_name := none, bundle_moniker := none,
    bundle_instance_id := none, start_time := none, end_time := none,
    status_name := none, status_moniker := none, sequence := none,
    sequence_max := none }

/-- A `rpt_usage` row with every nullable column null. -/
def blankRptUsageRow : RptUsageRow :=
  { source_id := "", tenant_id := "", customer_name := none,
    endpoint_name := none, endpoint_description := none, iccid := none,
    timestamp := none, usage_date := none, service_type := none,
    charge_type := none, consumption := none, charged_consumption := none,
    uplink_bytes := none, downlink_bytes := none, bundle_name := none,
    bundle_moniker := none, status_moniker := none, rat_type_moniker := none,
    serving_operator_name := none, serving_country_name := none,
    serving_country_iso2 := none, buy_charge := none, buy_currency := none,
    sell_charge := none, sell_currency := none, created_at := none,
    bundle_instance_id := none, sequence := none, sequence_max := none,
    synced_at := 0 }

/-- A `rpt_bundle_instances` row with every nullable column null. -/
def blankRptInstanceRow : RptInstanceRow :=
  { source_id := "", tenant_id := "", customer_name := none,
    endpoint_name := none, iccid := none, bundle_name := none,
    bundle_moniker := none, bundle_instance_id := none, start_time := none,
    end_time := none, status_name := none, status_moniker := none,
    sequence := none, sequence_max := none, data_used_mb := none,
    data_allowance_mb := none, synced_at := 0 }

/-- C1's run: one endpoint whose watermark column (`updated_at`) is `5`,
synced at wall-clock `now = 100`. -/
def c1Src : SourceDb :=
  { endpoints := [{ blankEndpointRecord with
      id := "e1", endpoint_identifier := "e1", tenant_id := some "allsee",
      created_at := 5, updated_at := 5 }],
    bundle_instances_report := [], custom_usage_reports := [], active_bundles := [] }

/-- C3's primary fallback source: two endpoint rows carrying the same ICCID
with different resolvable tenants. -/
def c3Src : SourceDb :=
  { endpoints :=
      [{ blankEndpointRecord with
           id := "e1", endpoint_identifier := "e1",
           iccid := some "894400000000000000X", tenant_id := some "allsee",
           created_at := 1, updated_at := 1 },
       { blankEndpointRecord with
           id := "e2", endpoint_identifier := "e2",
           iccid := some "894400000000000000X", tenant_id := some "trvllr",
           created_at := 2, updated_at := 2 }],
    bundle_instances_report := [], custom_usage_reports := [], active_bundles := [] }

/-- C4's conflicting upsert: the existing `rpt_usage` row. -/
def c4OldRow : RptUsageRow :=
  { blankRptUsageRow with source_id := "u1", tenant_id := "allsee", synced_at := 1 }

/-- C4's conflicting upsert: the freshly mapped row with the same dedup key
but a different resolved tenant. -/
def c4NewRow : RptUsageRow :=
  { blankRptUsageRow with source_id := "u1", tenant_id := "trvllr", synced_at := 2 }

/-- C6's witness usage table: one row that exact-matches the instance below
with 2 MiB of charged consumption. -/
def c6Usage : List RptUsageRow :=
  [{ blankRptUsageRow with
       source_id := "u1", tenant_id := "allsee", iccid := some "8944000000000000001",
       bundle_moniker := some "bm", sequence := some 1,
       charged_consumption := some 2097152, usage_date := some "2024-01-05" }]

/-- C6's witness instance table: one instance matched by the exact strategy
(and whose date range would also match). -/
def c6Instances : List RptInstanceRow :=
  [{ blankRptInstanceRow with
       source_id := "|8944000000000000001|2024-01-01T00:00:00",
       tenant_id := "allsee", iccid := some "8944000000000000001",
       bundle_moniker := some "BM", sequence := some 1,
       start_time := some "2024-01-01T00:00:00",
       end_time := some "2024-01-31T00:00:00" }]

/-- C8's source: a usage record with null `tenant_name` and a trailing-space
ICCID, and an endpoint record mapping the trimmed ICCID to tenant id
`"simsy"`. -/
def c8Src : SourceDb :=
  { endpoints := [{ blankEndpointRecord with
      id := "e1", endpoint_identifier := "e1",
      iccid := some "89440000001", tenant_id := some "simsy",
      created_at := 1, updated_at := 1 }],
    bundle_instances_report := [],
    custom_usage_reports := [{ blankUsageRecord with
      id := "u1", created_at := some 10, tenant_name := none,
      iccid := some "89440000001 ",
      timestamp := some "2024-01-02T03:04:05" }],
    active_bundles := [] }

/-- C8's source usage record (for stating which cascade step resolved it). -/
def c8UsageRecord : SupabaseUsageRecord :=
  { blankUsageRecord with
      id := "u1", created_at := some 10, tenant_name := none,
      iccid := some "89440000001 ",
      timestamp := some "2024-01-02T03:04:05" }

/-- C10's same-statement scenario: two bundle-instance records whose
identity fields (`bundle_instance_id`, `iccid`, `start_time`) are all null,
with resolvable tenants and distinct source rows — both land in one
`INSERT` statement. -/
def c10Src : SourceDb :=
  { endpoints := [],
    bundle_instances_report :=
      [{ blankInstanceRecord with
           id := "i1", created_at := 1,
           tenant_name := some "allsee", status_name := some "Active" },
       { blankInstanceRecord with
           id := "i2", created_at := 2,
           tenant_name := some "trvllr", status_name := some "Expired" }],
    custom_usage_reports := [], active_bundles := [] }

/-- C10's separate-statement scenario, first run: one all-null-identity
record. -/
def c10SrcA : SourceDb :=
  { endpoints := [],
    bundle_instances_report :=
      [{ blankInstanceRecord with
           id := "i1", created_at := 1,
           tenant_name := some "allsee", status_name := some "Active" }],
    custom_usage_reports := [], active_bundles := [] }

/-- C10's separate-statement scenario, second run: another
all-null-identity record arriving later. -/
def c10SrcB : SourceDb :=
  { endpoints := [],
    bundle_instances_report :=
      [{ blankInstanceRecord with
           id := "i2", created_at := 2,
           tenant_name := some "trvllr", status_name := some "Expired" }],
    custom_usage_reports := [], active_bundles := [] }

/-- C5's witness source: one endpoint updated after the stored watermark. -/
def c5Src : SourceDb :=
  { endpoints := [{ blankEndpointRecord with
      id := "e1", endpoint_identifier := "e1", tenant_id := some "allsee",
      created_at := 60, updated_at := 60 }],
    bundle_instances_report := [], custom_usage_reports := [], active_bundles := [] }

/-- C5's witness stored watermarks. -/
def c5Watermarks : Watermarks :=
  { usage := some 40, bundles := some 40, instances := some 40, endpoints := some 50 }

/-- C7's witness fault set: the endpoints fetch and the usage fetch throw. -/
def c7Faults : FaultModel :=
  { endpointsFetch := some "fetch endpoints failed (500)", endpointsWrite := none,
    instancesFetch := none, instancesWrite := none,
    usageFetch := some "fetch custom_usage_reports failed (500)", usageWrite := none,
    bundlesFetch := none, bundlesWrite := none }

/-- The membership-or-order the watermark store respects: `none` (no stored
cursor) precedes everything; stored cursors compare by value; a stored
cursor is never erased. -/
def wmLe : Option Nat → Option Nat → Prop
  | none, _ => True
  | some a, some b => a ≤ b
  | some _, none => False

/-- C6's witness instance after the exact strategy assigned its total
(2,097,152 bytes → 2 MB). -/
def c6ExpectedRow : RptInstanceRow :=
  { blankRptInstanceRow with
      source_id := "|8944000000000000001|2024-01-01T00:00:00",
      tenant_id := "allsee", iccid := some "8944000000000000001",
      bundle_moniker := some "BM", sequence := some 1,
      start_time := some "2024-01-01T00:00:00",
      end_time := some "2024-01-31T00:00:00",
      data_used_mb := some 2 }

/-! # Theorems -/

/-! ## Shared lemmas -/

/-- A successful association lookup returns one of the list's values. -/
theorem assocLookup_mem_values {m : List (String × String)} {k v : String}
    (h : assocLookup m k = some v) : v ∈ m.map Prod.snd := by
  induction m with
  | nil => simp [assocLookup] at h
  | cons p rest ih =>
    obtain ⟨a, b⟩ := p
    simp only [assocLookup] at h
    split at h
    · cases h; simp
    · simp only [List.map_cons, List.mem_cons]
      exact Or.inr (ih h)

/-- Every value of the tenant synonym table is a canonical tenant id. -/
theorem tenantNameMap_values_canonical :
    ∀ k v, assocLookup tenantNameMap k = some v →
      canonicalTenantIds.contains v = true := by
  intro k v h
  have hv := assocLookup_mem_values h
  have hall : (tenantNameMap.map Prod.snd).all
      (fun x => canonicalTenantIds.contains x) = true := by decide
  exact List.all_eq_true.mp hall v hv

/-- A synonym-table lookup whose key names no `Object.prototype` member is
an own (canonical-valued) entry or nothing — the prototype chain is out of
play. -/
theorem jsRecordLookup_canonical_off_proto (k : String)
    (hk : objectPrototypeKeys.contains k = false) :
    ((jsRecordLookup tenantNameMap k).all fun v =>
      match v with
      | JsLookupValue.str w => canonicalTenantIds.contains w
      | JsLookupValue.inherited _ => false) = true := by
  dsimp only [jsRecordLookup]
  cases hl : assocLookup tenantNameMap k with
  | some v => simpa [Option.all] using tenantNameMap_values_canonical _ _ hl
  | none =>
    rw [hk]
    simp

/-- The `if (TENANT_NAME_MAP[normalised])` truthiness guard returns the
looked-up value or falls through; it cannot manufacture new values. -/
theorem truthyGuard_all (r : Option JsLookupValue) (p : JsLookupValue → Bool)
    (hr : r.all p = true) :
    ((if jsLookupTruthy r then r else none).all p) = true := by
  split
  · exact hr
  · rfl

/-- Away from the `Object.prototype` key names, the name step yields only
canonical tenant ids. -/
theorem resolveFromName_canonical_off_proto (tenantName : Option String)
    (h : ∀ s, tenantName = some s →
      objectPrototypeKeys.contains (jsToLower (jsTrim s)) = false) :
    ((resolveFromName tenantName).all fun v =>
      match v with
      | JsLookupValue.str w => canonicalTenantIds.contains w
      | JsLookupValue.inherited _ => false) = true := by
  cases tenantName with
  | none => rfl
  | some tn =>
    dsimp only [resolveFromName]
    split
    · rfl
    · exact truthyGuard_all _ _ (jsRecordLookup_canonical_off_proto _ (h tn rfl))

/-- Away from the `Object.prototype` key names, the id fallback step yields
only canonical tenant ids. -/
theorem resolveFromId_canonical_off_proto (tenantId : Option String)
    (h : ∀ s, tenantId = some s →
      objectPrototypeKeys.contains (jsToLower (jsTrim s)) = false) :
    ((resolveFromId tenantId).all fun v =>
      match v with
      | JsLookupValue.str w => canonicalTenantIds.contains w
      | JsLookupValue.inherited _ => false) = true := by
  cases tenantId with
  | none => rfl
  | some ti =>
    dsimp only [resolveFromId]
    split
    · rfl
    · have hr := jsRecordLookup_canonical_off_proto (jsToLower (jsTrim ti)) (h ti rfl)
      split
      · exact hr
      · split
        · rename_i hc
          simpa [Option.all] using hc
        · rfl

/-! ## C2 -/

/-- C2 counterexample: `TENANT_NAME_MAP` is a plain object literal, so the
bracket lookup walks the prototype chain. At the input `"constructor"`
(likewise `"__proto__"`) the lookup hits the truthy inherited
`Object.prototype` member and `resolveTenantId` returns it — a Function
(coerced to `"function Object() \x7b [native code] \x7d"` at the SQL
boundary), which is neither one of the fixed canonical tenant ids nor
`null`. -/
theorem resolveTenantId_proto_chain_escape :
    resolveTenantIdJs (some "constructor") none =
      some (JsLookupValue.inherited "constructor") ∧
    resolveTenantIdJs (some "__proto__") none =
      some (JsLookupValue.inherited "__proto__") ∧
    resolveTenantId (some "constructor") none =
      some "function Object() \x7b [native code] \x7d" ∧
    canonicalTenantIds.contains "function Object() \x7b [native code] \x7d" = false ∧
    resolveTenantId (some "constructor") none ≠ none := by
  refine ⟨by decide, by decide, by decide, by decide, by decide⟩

/-- C2 amended: `resolveTenantId` is total (defined, never throwing, on
every pair of possibly-null inputs), and for every pair of inputs whose
trimmed-and-lowercased forms name no `Object.prototype` member (after
lowercasing only `"constructor"` and `"__proto__"` are reachable), the raw
result is one of the fixed canonical tenant ids or `null` — and so is the
string its callers observe. -/
theorem resolveTenantId_canonical_off_proto :
    ∀ tenantName tenantId : Option String,
      (∀ s, tenantName = some s →
        objectPrototypeKeys.contains (jsToLower (jsTrim s)) = false) →
      (∀ s, tenantId = some s →
        objectPrototypeKeys.contains (jsToLower (jsTrim s)) = false) →
      ((resolveTenantIdJs tenantName tenantId).all fun v =>
        match v with
        | JsLookupValue.str w => canonicalTenantIds.contains w
        | JsLookupValue.inherited _ => false) = true ∧
      ((resolveTenantId tenantName tenantId).all
        (fun v => canonicalTenantIds.contains v)) = true := by
  intro tn ti hn hi
  have hjs : ((resolveTenantIdJs tn ti).all fun v =>
      match v with
      | JsLookupValue.str w => canonicalTenantIds.contains w
      | JsLookupValue.inherited _ => false) = true := by
    dsimp only [resolveTenantIdJs]
    cases h : resolveFromName tn with
    | some v =>
      have hname := resolveFromName_canonical_off_proto tn hn
      rw [h] at hname
      exact hname
    | none => exact resolveFromId_canonical_off_proto ti hi
  refine ⟨hjs, ?_⟩
  dsimp only [resolveTenantId]
  cases h : resolveTenantIdJs tn ti with
  | none => rfl
  | some v =>
    rw [h] at hjs
    cases v with
    | str w => simpa [Option.all, jsStringCoerce] using hjs
    | inherited nm => simp [Option.all] at hjs

/-- C2 witness: the amended range property applied at a synonym-table
input. -/
theorem resolveTenantId_canonical_off_proto_witness :
    ((resolveTenantId (some " ALLSEE Technologies Limited ") none).all
      (fun v => canonicalTenantIds.contains v)) = true :=
  (resolveTenantId_canonical_off_proto (some " ALLSEE Technologies Limited ") none
    (by intro s hs; cases hs; decide) (fun s hs => Option.noConfusion hs)).2

/-! ## C9 -/

/-- While the accumulator is still below `maxRecords`, the pagination loop
can overshoot by at most one page: the result holds fewer than
`maxRecords + batchSize` records. -/
theorem fetchAllGo_maxRecords_bound {R : Type} (rows : List R) (b m : Nat) (hm : m ≠ 0) :
    ∀ (fuel offset : Nat) (acc : List R), acc.length < m →
      (fetchAllGo rows b (some m) fuel offset acc).length ≤ m - 1 + b := by
  intro fuel
  induction fuel with
  | zero =>
    intro off acc hacc
    simp only [fetchAllGo]
    omega
  | succ fuel ih =>
    intro off acc hacc
    simp only [fetchAllGo]
    have hpl : ((rows.drop off).take b).length ≤ b := by
      simp [List.length_take]
    have hlen : (acc ++ (rows.drop off).take b).length ≤ m - 1 + b := by
      simp only [List.length_append]
      omega
    split
    · exact hlen
    · split
      · exact hlen
      · split
        · exact hlen
        · split
          · exact hlen
          · rename_i hmax _ _ _
            apply ih
            simp only [maxRecordsHit, hm, if_false, decide_eq_true_eq] at hmax
            omega

/-- As soon as a freshly appended page brings the accumulated count to
`maxRecords`, the loop stops: no further page is requested. -/
theorem fetchAllGo_stop_at_max {R : Type} (rows : List R) (b m fuel offset : Nat)
    (acc : List R) (hm : m ≠ 0)
    (h : m ≤ (acc ++ (rows.drop offset).take b).length) :
    fetchAllGo rows b (some m) (fuel + 1) offset acc =
      acc ++ (rows.drop offset).take b := by
  have hc : maxRecordsHit (some m) (acc ++ (rows.drop offset).take b).length = true := by
    simp only [maxRecordsHit, hm, if_false]
    exact decide_eq_true h
  simp only [fetchAllGo, hc, if_true]

/-- C9: with `maxRecords` set, `fetchAll` stops requesting further pages as
soon as the accumulated count reaches `maxRecords` (second conjunct), yet
because each full page is appended before the limit check the result may
exceed `maxRecords`, by up to `maxRecords + batchSize - 1` in total (first
conjunct); the bound is attained, e.g. by 4 rows fetched with
`batchSize = 2, maxRecords = 3` (remaining conjuncts). -/
theorem fetchAll_maxRecords_overshoot :
    (∀ (R : Type) (rows : List R) (wmKey : R → Option Nat) (wm : Option Nat) (b m : Nat),
        1 ≤ m → (fetchAll rows wmKey wm b (some m)).length ≤ m + b - 1) ∧
    (∀ (R : Type) (rows : List R) (b m fuel offset : Nat) (acc : List R),
        1 ≤ m → m ≤ (acc ++ (rows.drop offset).take b).length →
        fetchAllGo rows b (some m) (fuel + 1) offset acc =
          acc ++ (rows.drop offset).take b) ∧
    fetchAll ([1, 2, 3, 4] : List Nat) (fun n => some n) none 2 (some 3) = [1, 2, 3, 4] ∧
    3 < (fetchAll ([1, 2, 3, 4] : List Nat) (fun n => some n) none 2 (some 3)).length ∧
    (fetchAll ([1, 2, 3, 4] : List Nat) (fun n => some n) none 2 (some 3)).length =
      3 + 2 - 1 := by
  refine ⟨?_, ?_, by decide, by decide, by decide⟩
  · intro R rows wmKey wm b m hm
    have hb := fetchAllGo_maxRecords_bound (serverFilter wmKey wm rows) b m
      (by omega) ((serverFilter wmKey wm rows).length + 1) 0 [] (by simp; omega)
    simp only [fetchAll]
    omega
  · intro R rows b m fuel offset acc hm h
    exact fetchAllGo_stop_at_max rows b m fuel offset acc (by omega) h

/-- C9 witness: the general bound applied at the concrete input. -/
theorem fetchAll_maxRecords_overshoot_witness :
    1 ≤ 3 ∧
    (fetchAll ([1, 2, 3, 4] : List Nat) (fun n => some n) none 2 (some 3)).length ≤
      3 + 2 - 1 :=
  ⟨by decide,
   fetchAll_maxRecords_overshoot.1 Nat [1, 2, 3, 4] (fun n => some n) none 2 3 (by decide)⟩

/-! ## C10 -/

/-- C10 counterexample: the two all-null-identity records do receive the
identical dedup key `"||"`, but they land in the same 500-row `INSERT`
statement, which PostgreSQL rejects with its
cannot-affect-row-a-second-time error — so the sync records that error with
zero records synced and an unchanged (still empty) target table, rather
than collapsing the records into a single upserted row. -/
theorem bundleInstanceSourceId_same_statement_error :
    (c10Src.bundle_instances_report.map
      (fun r => buildBundleInstanceSourceId r.bundle_instance_id r.iccid r.start_time)) =
      ["||", "||"] ∧
    (syncInstances c10Src [] none 1000 7 none none).2.error = some PG_CARDINALITY_MSG ∧
    (syncInstances c10Src [] none 1000 7 none none).2.recordsSynced = 0 ∧
    (syncInstances c10Src [] none 1000 7 none none).1 = [] := by
  refine ⟨by decide, by decide, by decide, by decide⟩

/-- C10 amended: `buildBundleInstanceSourceId` is total (defined on all
possibly-null inputs) and maps every record whose three identity components
are null to the identical dedup key `"||"` (first two conjuncts). Two such
records in one `INSERT` statement make PostgreSQL reject the statement
(third conjunct), so that sync errors with nothing written; written in
separate statements — here two successive runs — the second upserts onto
the first and the records collapse into a single target row (final
conjuncts). -/
theorem bundleInstanceSourceId_null_key_behavior :
    buildBundleInstanceSourceId none none none = "||" ∧
    (∀ bundleInstanceId iccid startTime : Option String,
        bundleInstanceId = none → iccid = none → startTime = none →
        buildBundleInstanceSourceId bundleInstanceId iccid startTime = "||") ∧
    upsertChunk (fun r : RptInstanceRow => r.source_id) rptInstancesOnConflict []
      (c10Src.bundle_instances_report.filterMap (mapInstanceRecord 7)) =
      Except.error PG_CARDINALITY_MSG ∧
    (syncInstances c10SrcB (syncInstances c10SrcA [] none 1000 7 none none).1
        none 1000 8 none none).1.map (fun r => r.source_id) = ["||"] ∧
    (syncInstances c10SrcB (syncInstances c10SrcA [] none 1000 7 none none).1
        none 1000 8 none none).1.length = 1 ∧
    (syncInstances c10SrcB (syncInstances c10SrcA [] none 1000 7 none none).1
        none 1000 8 none none).2.error = none := by
  refine ⟨by decide, ?_, by rfl, by decide, by decide, by decide⟩
  rintro _ _ _ rfl rfl rfl
  decide

/-- C10 witness: the universally quantified identical-key property applied
at null inputs. -/
theorem bundleInstanceSourceId_null_key_behavior_witness :
    buildBundleInstanceSourceId none none none = "||" :=
  bundleInstanceSourceId_null_key_behavior.2.1 none none none rfl rfl rfl

/-! ## C4 -/

/-- C4 counterexample: the `rpt_usage` conflict action overwrites the
identity field `tenant_id` — upserting a row with dedup key `"u1"` over an
existing `"u1"` row replaces its tenant `"allsee"` with `"trvllr"`. -/
theorem rptUsage_conflict_overwrites_tenant :
    c4OldRow.source_id = c4NewRow.source_id ∧
    c4OldRow.tenant_id = "allsee" ∧
    (rptUsageOnConflict c4OldRow c4NewRow).tenant_id = "trvllr" ∧
    (upsertRow (fun r => r.source_id) rptUsageOnConflict [c4OldRow] c4NewRow).map
      (fun r => r.tenant_id) = ["trvllr"] ∧
    ("trvllr" : String) ≠ "allsee" := by
  refine ⟨rfl, rfl, rfl, by decide, by decide⟩

/-- C4 amended: on a dedup-key conflict each table's upsert overwrites
exactly the columns of its `DO UPDATE SET` list and preserves every other
column of the existing row. For `rpt_bundle_instances` and `rpt_bundles`
these are status / end-of-period / name fields plus `synced_at`, and
identity fields are preserved; for `rpt_endpoints` the rolling metrics,
status fields, `endpoint_name`, `latest_activity` and `synced_at` are
overwritten while `tenant_id` is additionally protected by being part of
the conflict key; but for `rpt_usage` the conflict action also overwrites
`tenant_id`, `customer_name`, `bundle_name` and `bundle_moniker`. -/
theorem upsert_conflict_frame :
    (∀ old new : RptUsageRow,
        (rptUsageOnConflict old new).source_id = old.source_id ∧
        (rptUsageOnConflict old new).endpoint_name = old.endpoint_name ∧
        (rptUsageOnConflict old new).endpoint_description = old.endpoint_description ∧
        (rptUsageOnConflict old new).iccid = old.iccid ∧
        (rptUsageOnConflict old new).timestamp = old.timestamp ∧
        (rptUsageOnConflict old new).usage_date = old.usage_date ∧
        (rptUsageOnConflict old new).service_type = old.service_type ∧
        (rptUsageOnConflict old new).charge_type = old.charge_type ∧
        (rptUsageOnConflict old new).consumption = old.consumption ∧
        (rptUsageOnConflict old new).charged_consumption = old.charged_consumption ∧
        (rptUsageOnConflict old new).uplink_bytes = old.uplink_bytes ∧
        (rptUsageOnConflict old new).downlink_bytes = old.downlink_bytes ∧
        (rptUsageOnConflict old new).rat_type_moniker = old.rat_type_moniker ∧
        (rptUsageOnConflict old new).serving_operator_name = old.serving_operator_name ∧
        (rptUsageOnConflict old new).serving_country_name = old.serving_country_name ∧
        (rptUsageOnConflict old new).serving_country_iso2 = old.serving_country_iso2 ∧
        (rptUsageOnConflict old new).buy_charge = old.buy_charge ∧
        (rptUsageOnConflict old new).buy_currency = old.buy_currency ∧
        (rptUsageOnConflict old new).sell_charge = old.sell_charge ∧
        (rptUsageOnConflict old new).sell_currency = old.sell_currency ∧
        (rptUsageOnConflict old new).created_at = old.created_at ∧
        (rptUsageOnConflict old new).bundle_instance_id = old.bundle_instance_id ∧
        (rptUsageOnConflict old new).sequence = old.sequence ∧
        (rptUsageOnConflict old new).sequence_max = old.sequence_max ∧
        (rptUsageOnConflict old new).tenant_id = new.tenant_id ∧
        (rptUsageOnConflict old new).customer_name = new.customer_name ∧
        (rptUsageOnConflict old new).bundle_name = new.bundle_name ∧
        (rptUsageOnConflict old new).bundle_moniker = new.bundle_moniker ∧
        (rptUsageOnConflict old new).status_moniker = new.status_moniker ∧
        (rptUsageOnConflict old new).synced_at = new.synced_at) ∧
    (∀ old new : RptEndpointRow,
        (rptEndpointsOnConflict old new).source_id = old.source_id ∧
        (rptEndpointsOnConflict old new).tenant_id = old.tenant_id ∧
        (rptEndpointsOnConflict old new).customer_id = old.customer_id ∧
        (rptEndpointsOnConflict old new).endpoint_type = old.endpoint_type ∧
        (rptEndpointsOnConflict old new).endpoint_type_name = old.endpoint_type_name ∧
        (rptEndpointsOnConflict old new).first_activity = old.first_activity ∧
        (rptEndpointsOnConflict old new).endpoint_name = new.endpoint_name ∧
        (rptEndpointsOnConflict old new).status = new.status ∧
        (rptEndpointsOnConflict old new).endpoint_status_name = new.endpoint_status_name ∧
        (rptEndpointsOnConflict old new).network_status_name = new.network_status_name ∧
        (rptEndpointsOnConflict old new).usage_rolling_24h = new.usage_rolling_24h ∧
        (rptEndpointsOnConflict old new).usage_rolling_7d = new.usage_rolling_7d ∧
        (rptEndpointsOnConflict old new).usage_rolling_28d = new.usage_rolling_28d ∧
        (rptEndpointsOnConflict old new).usage_rolling_1y = new.usage_rolling_1y ∧
        (rptEndpointsOnConflict old new).charge_rolling_24h = new.charge_rolling_24h ∧
        (rptEndpointsOnConflict old new).charge_rolling_7d = new.charge_rolling_7d ∧
        (rptEndpointsOnConflict old new).charge_rolling_28d = new.charge_rolling_28d ∧
        (rptEndpointsOnConflict old new).charge_rolling_1y = new.charge_rolling_1y ∧
        (rptEndpointsOnConflict old new).latest_activity = new.latest_activity ∧
        (rptEndpointsOnConflict old new).synced_at = new.synced_at) ∧
    (∀ old new : RptInstanceRow,
        (rptInstancesOnConflict old new).source_id = old.source_id ∧
        (rptInstancesOnConflict old new).tenant_id = old.tenant_id ∧
        (rptInstancesOnConflict old new).customer_name = old.customer_name ∧
        (rptInstancesOnConflict old new).endpoint_name = old.endpoint_name ∧
        (rptInstancesOnConflict old new).iccid = old.iccid ∧
        (rptInstancesOnConflict old new).bundle_name = old.bundle_name ∧
        (rptInstancesOnConflict old new).bundle_moniker = old.bundle_moniker ∧
        (rptInstancesOnConflict old new).bundle_instance_id = old.bundle_instance_id ∧
        (rptInstancesOnConflict old new).start_time = old.start_time ∧
        (rptInstancesOnConflict old new).sequence = old.sequence ∧
        (rptInstancesOnConflict old new).sequence_max = old.sequence_max ∧
        (rptInstancesOnConflict old new).data_used_mb = old.data_used_mb ∧
        (rptInstancesOnConflict old new).data_allowance_mb = old.data_allowance_mb ∧
        (rptInstancesOnConflict old new).status_name = new.status_name ∧
        (rptInstancesOnConflict old new).status_moniker = new.status_moniker ∧
        (rptInstancesOnConflict old new).end_time = new.end_time ∧
        (rptInstancesOnConflict old new).synced_at = new.synced_at) ∧
    (∀ old new : RptBundleRow,
        (rptBundlesOnConflict old new).source_id = old.source_id ∧
        (rptBundlesOnConflict old new).tenant_id = old.tenant_id ∧
        (rptBundlesOnConflict old new).bundle_moniker = old.bundle_moniker ∧
        (rptBundlesOnConflict old new).description = old.description ∧
        (rptBundlesOnConflict old new).price = old.price ∧
        (rptBundlesOnConflict old new).currency = old.currency ∧
        (rptBundlesOnConflict old new).formatted_price = old.formatted_price ∧
        (rptBundlesOnConflict old new).allowance = old.allowance ∧
        (rptBundlesOnConflict old new).allowance_moniker = old.allowance_moniker ∧
        (rptBundlesOnConflict old new).bundle_type_name = old.bundle_type_name ∧
        (rptBundlesOnConflict old new).offer_type_name = old.offer_type_name ∧
        (rptBundlesOnConflict old new).effective_from = old.effective_from ∧
        (rptBundlesOnConflict old new).bundle_name = new.bundle_name ∧
        (rptBundlesOnConflict old new).status_name = new.status_name ∧
        (rptBundlesOnConflict old new).effective_to = new.effective_to ∧
        (rptBundlesOnConflict old new).synced_at = new.synced_at) := by
  refine ⟨fun old new => ?_, fun old new => ?_, fun old new => ?_, fun old new => ?_⟩ <;>
    repeat' constructor

/-! ## C6 -/

/-- The date-range strategy maps each instance through a function that is
the identity on instances whose total is already assigned. -/
theorem applyStrategy2_preserves_assigned (usage : List RptUsageRow)
    (l : List RptInstanceRow) (i : Nat) (bi : RptInstanceRow)
    (hget : l[i]? = some bi) (hsome : bi.data_used_mb.isSome = true) :
    (applyStrategy2 usage l)[i]? = some bi := by
  unfold applyStrategy2
  rw [List.getElem?_map, hget]
  simp [hsome]

/-- C6: within one backfill run, an instance whose total was assigned by the
exact strategy is never subsequently modified by the date-range strategy
(first conjunct), and any instance the date-range strategy does modify still
had a null total after the exact strategy (second conjunct). Positions are
relative to the post-trim, post-reset, post-exact-strategy table that
`backfillBundleUsage` feeds to the date-range strategy. -/
theorem backfill_exact_before_daterange :
    (∀ (usage : List RptUsageRow) (insts : List RptInstanceRow) (i : Nat)
        (bi : RptInstanceRow),
        (applyStrategy1 usage (backfillReset (backfillTrimPhase insts)))[i]? = some bi →
        bi.data_used_mb.isSome = true →
        (backfillBundleUsage usage insts)[i]? = some bi) ∧
    (∀ (usage : List RptUsageRow) (insts : List RptInstanceRow) (i : Nat)
        (bi : RptInstanceRow),
        (applyStrategy1 usage (backfillReset (backfillTrimPhase insts)))[i]? = some bi →
        (backfillBundleUsage usage insts)[i]? ≠ some bi →
        bi.data_used_mb = none) := by
  constructor
  · intro usage insts i bi hget hsome
    exact applyStrategy2_preserves_assigned usage _ i bi hget hsome
  · intro usage insts i bi hget hne
    by_contra h
    exact hne (applyStrategy2_preserves_assigned usage _ i bi hget
      (Option.ne_none_iff_isSome.mp h))

/-- C6 witness: on the concrete tables, the instance the exact strategy
assigned 2 MB to survives the date-range strategy unchanged. -/
theorem backfill_exact_before_daterange_witness :
    (backfillBundleUsage c6Usage c6Instances)[0]? = some c6ExpectedRow :=
  backfill_exact_before_daterange.1 c6Usage c6Instances 0 c6ExpectedRow
    (by decide) (by decide)

/-! ## C3 -/

/-- C3 counterexample: inside the primary source, `Map.set` is
unconditional, so an identifier already in `exactMap` is overwritten by a
later endpoints row. With `c3Src`'s two endpoint rows sharing one ICCID,
the first pass leaves the identifier bound to `"allsee"`, yet the finished
index binds it to `"trvllr"`. -/
theorem primary_iccid_source_overwrites :
    assocLookup (primaryIccidPhase (c3Src.endpoints.take 1)) "894400000000000000X" =
      some "allsee" ∧
    assocLookup (primaryIccidPhase
        (fetchAll c3Src.endpoints (fun r => some r.updated_at) none 1000 none))
        "894400000000000000X" = some "trvllr" ∧
    assocLookup (buildIccidTenantMap c3Src).exactMap "894400000000000000X" =
      some "trvllr" ∧
    ("trvllr" : String) ≠ "allsee" := by
  refine ⟨by decide, by decide, by decide, by decide⟩

/-- `Map.set` on a key absent from the map appends and therefore preserves
every existing binding. -/
theorem assocLookup_append_of_some {m : List (String × String)}
    {l : List (String × String)} {k v : String}
    (h : assocLookup m k = some v) : assocLookup (m ++ l) k = some v := by
  induction m with
  | nil => simp [assocLookup] at h
  | cons p rest ih =>
    obtain ⟨a, b⟩ := p
    simp only [assocLookup, List.cons_append] at h ⊢
    split at h <;> split <;> first | exact h | exact ih h | contradiction

/-- Overwriting an existing binding in place makes the key look up to the
new value. -/
theorem assocLookup_map_overwrite (n t : String) :
    ∀ m : List (String × String), jsMapHas m n = true →
      assocLookup (m.map (fun p => if p.1 = n then (p.1, t) else p)) n = some t := by
  intro m
  induction m with
  | nil => intro h; simp [jsMapHas, assocLookup] at h
  | cons p rest ih =>
    obtain ⟨a, b⟩ := p
    intro h
    simp only [List.map_cons]
    by_cases hp : a = n
    · subst hp
      rw [if_pos rfl, assocLookup, if_pos rfl]
    · rw [if_neg hp, assocLookup, if_neg (fun he => hp he.symm)]
      have h' : jsMapHas rest n = true := by
        simp only [jsMapHas, assocLookup] at h
        rw [if_neg (fun he => hp he.symm)] at h
        exact h
      exact ih h'

/-- Appending a fresh binding makes the key look up to the new value. -/
theorem assocLookup_append_right_self (n t : String) :
    ∀ m : List (String × String), jsMapHas m n = false →
      assocLookup (m ++ [(n, t)]) n = some t := by
  intro m
  induction m with
  | nil => intro _; simp [assocLookup]
  | cons p rest ih =>
    obtain ⟨a, b⟩ := p
    intro h
    by_cases hp : n = a
    · exfalso
      simp [jsMapHas, assocLookup, hp] at h
    · have h' : jsMapHas rest n = false := by
        simp only [jsMapHas, assocLookup] at h
        rw [if_neg hp] at h
        exact h
      rw [List.cons_append, assocLookup, if_neg hp]
      exact ih h'

/-- `Map.set` makes the written key look up to the written value, whether
it overwrote an existing binding or appended a new one — this is why the
primary source's unconditional `set` lets the last resolvable row win. -/
theorem jsMapSet_lookup_self (m : List (String × String)) (n t : String) :
    assocLookup (jsMapSet m n t) n = some t := by
  unfold jsMapSet
  split
  · rename_i hhas
    exact assocLookup_map_overwrite n t m hhas
  · rename_i hhas
    have hfalse : jsMapHas m n = false := by
      revert hhas
      cases jsMapHas m n <;> simp
    exact assocLookup_append_right_self n t m hfalse

/-- `Map.set` with a key not yet in the map appends, so every existing
binding keeps its value. -/
theorem jsMapSet_preserves_of_not_has (m : List (String × String)) (n t k v : String)
    (hhas : jsMapHas m n = false) (h : assocLookup m k = some v) :
    assocLookup (jsMapSet m n t) k = some v := by
  unfold jsMapSet
  rw [if_neg (by simp [hhas])]
  exact assocLookup_append_of_some h

/-- A fold over a binding-preserving step preserves bindings. -/
theorem foldl_preserves_assocLookup {β : Type}
    (step : List (String × String) → β → List (String × String))
    (hstep : ∀ m x k v, assocLookup m k = some v → assocLookup (step m x) k = some v) :
    ∀ (xs : List β) (m : List (String × String)) (k v : String),
      assocLookup m k = some v → assocLookup (xs.foldl step m) k = some v := by
  intro xs
  induction xs with
  | nil => intro m k v h; simpa using h
  | cons x rest ih =>
    intro m k v h
    rw [List.foldl_cons]
    exact ih _ _ _ (hstep m x k v h)

/-- One secondary-source iteration never overwrites an existing binding. -/
theorem secondaryIccidStep_preserves (m : List (String × String))
    (inst : SupabaseBundleInstanceRecord) (k v : String)
    (h : assocLookup m k = some v) :
    assocLookup (secondaryIccidStep m inst) k = some v := by
  unfold secondaryIccidStep
  split
  · rename_i ic hic
    split
    · exact h
    · dsimp only
      split
      · exact h
      · rename_i hhas
        split
        · apply jsMapSet_preserves_of_not_has
          · revert hhas
            cases jsMapHas m (jsTrim ic) <;> simp
          · exact h
        · exact h
  · exact h

/-- One tertiary-source iteration never overwrites an existing binding. -/
theorem tertiaryIccidStep_preserves (m : List (String × String))
    (b : SupabaseBundleRecord) (k v : String)
    (h : assocLookup m k = some v) :
    assocLookup (tertiaryIccidStep m b) k = some v := by
  unfold tertiaryIccidStep
  split
  · rename_i ic hic
    split
    · exact h
    · dsimp only
      split
      · exact h
      · rename_i hhas
        split
        · apply jsMapSet_preserves_of_not_has
          · revert hhas
            cases jsMapHas m (jsTrim ic) <;> simp
          · exact h
        · exact h
  · exact h

/-- C3 amended: the secondary and tertiary fallback sources are gap-filling
only — an identifier already in `exactMap` keeps its binding through both
phases, so anything bound after the primary phase is still bound to the same
tenant in the finished index (first three conjuncts). Within the primary
source itself, however, `Map.set` is unconditional, so each resolvable row
rebinds its identifier and the last such row wins (final conjunct shows a
`set` always takes effect, even over an existing binding). -/
theorem iccid_gapfill_never_overwrites :
    (∀ (instances : List SupabaseBundleInstanceRecord)
        (m : List (String × String)) (k v : String),
        assocLookup m k = some v →
        assocLookup (secondaryIccidPhase instances m) k = some v) ∧
    (∀ (bundles : List SupabaseBundleRecord)
        (m : List (String × String)) (k v : String),
        assocLookup m k = some v →
        assocLookup (tertiaryIccidPhase bundles m) k = some v) ∧
    (∀ (src : SourceDb) (k v : String),
        assocLookup (primaryIccidPhase
          (fetchAll src.endpoints (fun r => some r.updated_at) none 1000 none)) k =
            some v →
        assocLookup (buildIccidTenantMap src).exactMap k = some v) ∧
    (∀ (m : List (String × String)) (n t : String),
        assocLookup (jsMapSet m n t) n = some t) := by
  have hsec : ∀ (instances : List SupabaseBundleInstanceRecord)
      (m : List (String × String)) (k v : String),
      assocLookup m k = some v →
      assocLookup (secondaryIccidPhase instances m) k = some v := fun instances =>
    foldl_preserves_assocLookup secondaryIccidStep secondaryIccidStep_preserves instances
  have hter : ∀ (bundles : List SupabaseBundleRecord)
      (m : List (String × String)) (k v : String),
      assocLookup m k = some v →
      assocLookup (tertiaryIccidPhase bundles m) k = some v := fun bundles =>
    foldl_preserves_assocLookup tertiaryIccidStep tertiaryIccidStep_preserves bundles
  refine ⟨hsec, hter, ?_, jsMapSet_lookup_self⟩
  intro src k v h
  exact hter _ _ _ _ (hsec _ _ _ _ h)

/-- C3 amended witness: on `c3Src`, the binding left by the primary phase
(the later row's tenant) survives the gap-filling phases into the final
index. -/
theorem iccid_gapfill_never_overwrites_witness :
    assocLookup (buildIccidTenantMap c3Src).exactMap "894400000000000000X" =
      some "trvllr" :=
  iccid_gapfill_never_overwrites.2.2.1 c3Src "894400000000000000X" "trvllr" (by decide)

/-! ## C8 -/

/-- C8: end-to-end, the usage record with `tenant_name = null` and ICCID
`"89440000001 "` (trailing space) is not dropped: the `tenant_name` step of
the cascade fails, the trimmed ICCID hits the exact lookup built from the
endpoint record (`tenant_id "simsy"` resolving to `"simsy-app"`), and the
row is written to `rpt_usage` with that non-null tenant. -/
theorem usage_resolved_via_iccid_exact :
    resolveTenantId c8UsageRecord.tenant_name none = none ∧
    assocLookup (buildIccidTenantMap c8Src).exactMap (jsTrim "89440000001 ") =
      some "simsy-app" ∧
    resolveUsageTenant (buildIccidTenantMap c8Src) c8UsageRecord = some "simsy-app" ∧
    (syncUsage c8Src [] none 1000 99 none none).1.map
      (fun r => (r.source_id, r.tenant_id)) = [("u1", "simsy-app")] ∧
    (syncUsage c8Src [] none 1000 99 none none).2.1.recordsSynced = 1 ∧
    (syncUsage c8Src [] none 1000 99 none none).2.1.error = none := by
  refine ⟨by decide, by decide, by decide, by decide, by decide, by decide⟩

/-! ## C1 -/

/-- C1 counterexample: on `c1Src` the endpoints pipeline succeeds with one
synced record whose watermark column (`updated_at`) is `5`, yet the
orchestrator commits the wall-clock run timestamp `100` as the endpoints
watermark — not the last fetched record's watermark-column value. -/
theorem orchestrator_commits_wallclock_watermark :
    (scheduled c1Src emptyReportDb noWatermarks 1000 100 none noFaults).results.map
      (fun r => (r.table, r.recordsSynced, r.error)) =
      [("rpt_endpoints", 1, none), ("rpt_bundle_instances", 0, none),
       ("rpt_usage", 0, none), ("rpt_bundles", 0, none)] ∧
    ((fetchAll c1Src.endpoints (fun r => some r.updated_at) none 1000 none).map
      (fun r => r.updated_at)).getLast? = some 5 ∧
    (scheduled c1Src emptyReportDb noWatermarks 1000 100 none
      noFaults).watermarks.endpoints = some 100 ∧
    (100 : Nat) ≠ 5 := by
  refine ⟨by decide, by decide, by decide, by decide⟩

/-- Splitting into `BULK_INSERT_SIZE` chunks loses and duplicates no rows:
the chunk lengths sum to the original length. -/
theorem chunkedGo_length_sum {α : Type} :
    ∀ (fuel : Nat) (l : List α), l.length ≤ fuel →
      ((chunkedGo fuel l).map List.length).sum = l.length := by
  intro fuel
  induction fuel with
  | zero =>
    intro l h
    rw [List.eq_nil_of_length_eq_zero (Nat.le_zero.mp h)]
    simp [chunkedGo]
  | succ fuel ih =>
    intro l h
    cases l with
    | nil => simp [chunkedGo]
    | cons a as =>
      simp only [chunkedGo, List.map_cons, List.sum_cons]
      rw [ih]
      · simp only [List.length_take, List.length_drop, List.length_cons]
        simp only [BULK_INSERT_SIZE]
        omega
      · simp only [List.length_drop, List.length_cons]
        simp only [BULK_INSERT_SIZE]
        simp only [List.length_cons] at h
        omega

/-- The chunking of the mapped rows covers exactly the mapped rows. -/
theorem chunked_length_sum {α : Type} (l : List α) :
    ((chunked l).map List.length).sum = l.length :=
  chunkedGo_length_sum (l.length + 1) l (by omega)

/-- Whenever the chunked write loop returns without error — no injected
fault hit, and every statement accepted by the store — it counted every row
of every chunk. -/
theorem writeChunksGo_error_none {ρ : Type}
    (write : List ρ → List ρ → Except String (List ρ))
    (wf : Option (Nat × String)) :
    ∀ (cs : List (List ρ)) (idx : Nat) (tbl : List ρ) (synced : Nat)
      (tbl2 : List ρ) (synced2 : Nat),
      writeChunksGo write wf cs idx tbl synced = (tbl2, synced2, none) →
      synced2 = synced + (cs.map List.length).sum := by
  intro cs
  induction cs with
  | nil =>
    intro idx tbl synced tbl2 synced2 h
    simp only [writeChunksGo] at h
    cases h
    simp
  | cons c rest ih =>
    intro idx tbl synced tbl2 synced2 h
    simp only [writeChunksGo] at h
    cases wf with
    | some f =>
      obtain ⟨i, msg⟩ := f
      dsimp only at h
      by_cases hi : i = idx
      · rw [if_pos hi] at h
        simp at h
      · rw [if_neg hi] at h
        cases hw : write tbl c with
        | error msg2 =>
          rw [hw] at h
          simp at h
        | ok tbl1 =>
          rw [hw] at h
          have := ih (idx + 1) tbl1 (synced + c.length) tbl2 synced2 h
          simp only [List.map_cons, List.sum_cons]
          omega
    | none =>
      dsimp only at h
      cases hw : write tbl c with
      | error msg2 =>
        rw [hw] at h
        simp at h
      | ok tbl1 =>
        rw [hw] at h
        have := ih (idx + 1) tbl1 (synced + c.length) tbl2 synced2 h
        simp only [List.map_cons, List.sum_cons]
        omega

/-- `syncUsage` hands at most one value to `saveWatermark`, and only on the
success path: when it saves, the value is the last fetched record's
`created_at`, no error was returned, and at least one record was synced. -/
theorem syncUsage_saved_spec (src : SourceDb) (tbl : List RptUsageRow)
    (wm : Option Nat) (b now : Nat) (fetchErr : Option String)
    (writeFail : Option (Nat × String)) :
    (syncUsage src tbl wm b now fetchErr writeFail).2.2 = [] ∨
    (∃ w, (syncUsage src tbl wm b now fetchErr writeFail).2.2 = [w] ∧
      (usageFetch src wm b).getLast?.bind (fun r => r.created_at) = some w ∧
      (syncUsage src tbl wm b now fetchErr writeFail).2.1.error = none ∧
      0 < (syncUsage src tbl wm b now fetchErr writeFail).2.1.recordsSynced) := by
  unfold syncUsage
  cases fetchErr with
  | some msg => exact Or.inl rfl
  | none =>
    simp only
    by_cases hrec : (usageFetch src wm b).isEmpty
    · rw [if_pos hrec]
      exact Or.inl rfl
    · rw [if_neg hrec]
      by_cases hmap : ((usageFetch src wm b).filterMap
          (mapUsageRecord (buildIccidTenantMap src) now)).isEmpty
      · rw [if_pos hmap]
        exact Or.inl rfl
      · rw [if_neg hmap]
        rcases hwc : writeChunks rptUsageWrite writeFail
          (chunked ((usageFetch src wm b).filterMap
            (mapUsageRecord (buildIccidTenantMap src) now))) tbl with ⟨tbl2, synced, werr⟩
        cases werr with
        | some msg =>
          exact Or.inl rfl
        | none =>
          dsimp only
          unfold usageSavedWatermarks
          cases hl : (usageFetch src wm b).getLast? with
          | none => exact Or.inl rfl
          | some lastRecord =>
            dsimp only
            cases hc : lastRecord.created_at with
            | none => exact Or.inl rfl
            | some w =>
              refine Or.inr ⟨w, rfl, ?_, rfl, ?_⟩
              · simp [hc]
              · have hsum := writeChunksGo_error_none rptUsageWrite writeFail
                  (chunked ((usageFetch src wm b).filterMap
                    (mapUsageRecord (buildIccidTenantMap src) now))) 0 tbl 0 tbl2 synced hwc
                rw [chunked_length_sum] at hsum
                have hpos : 0 < ((usageFetch src wm b).filterMap
                    (mapUsageRecord (buildIccidTenantMap src) now)).length := by
                  rcases hn : (usageFetch src wm b).filterMap
                      (mapUsageRecord (buildIccidTenantMap src) now) with _ | ⟨x, xs⟩
                  · rw [hn] at hmap
                    simp at hmap
                  · simp
                omega

/-- C1 amended: a table's watermark is committed only when its pipeline
returned without error and synced at least one record — but the committed
value for the endpoints, instances and bundles tables is the wall-clock run
timestamp `now`, not the last record's watermark-column value; and the
usage pipeline saves its own watermark through `saveWatermark` once, after
all write chunks rather than after every chunk: at most one value is ever
saved, it equals the last fetched record's `created_at`, and it is saved
only when the pipeline returned without error having synced at least one
record. -/
theorem watermark_commit_policy (src : SourceDb) (db : ReportDb) (wms : Watermarks)
    (b now : Nat) (faults : FaultModel) :
    ((scheduled src db wms b now none faults).watermarks.endpoints =
      if (syncEndpoints src db.rpt_endpoints wms.endpoints b now
            faults.endpointsFetch faults.endpointsWrite).2.error = none ∧
          0 < (syncEndpoints src db.rpt_endpoints wms.endpoints b now
            faults.endpointsFetch faults.endpointsWrite).2.recordsSynced
       then some now else wms.endpoints) ∧
    ((scheduled src db wms b now none faults).watermarks.instances =
      if (syncInstances src db.rpt_bundle_instances wms.instances b now
            faults.instancesFetch faults.instancesWrite).2.error = none ∧
          0 < (syncInstances src db.rpt_bundle_instances wms.instances b now
            faults.instancesFetch faults.instancesWrite).2.recordsSynced
       then some now else wms.instances) ∧
    ((scheduled src db wms b now none faults).watermarks.bundles =
      if (syncBundles src db.rpt_bundles wms.bundles b now
            faults.bundlesFetch faults.bundlesWrite).2.error = none ∧
          0 < (syncBundles src db.rpt_bundles wms.bundles b now
            faults.bundlesFetch faults.bundlesWrite).2.recordsSynced
       then some now else wms.bundles) ∧
    ((scheduled src db wms b now none faults).watermarks.usage =
      (syncUsage src db.rpt_usage wms.usage b now faults.usageFetch
          faults.usageWrite).2.2.foldl (fun _ v => some v) wms.usage) ∧
    ((syncUsage src db.rpt_usage wms.usage b now faults.usageFetch
        faults.usageWrite).2.2.length ≤ 1) ∧
    ((syncUsage src db.rpt_usage wms.usage b now faults.usageFetch
        faults.usageWrite).2.2 = [] ∨
      ∃ w, (syncUsage src db.rpt_usage wms.usage b now faults.usageFetch
              faults.usageWrite).2.2 = [w] ∧
        (usageFetch src wms.usage b).getLast?.bind (fun r => r.created_at) = some w ∧
        (syncUsage src db.rpt_usage wms.usage b now faults.usageFetch
          faults.usageWrite).2.1.error = none ∧
        0 < (syncUsage src db.rpt_usage wms.usage b now faults.usageFetch
          faults.usageWrite).2.1.recordsSynced) := by
  refine ⟨rfl, rfl, rfl, rfl, ?_, ?_⟩
  · rcases syncUsage_saved_spec src db.rpt_usage wms.usage b now faults.usageFetch
      faults.usageWrite with h | ⟨w, h, _⟩ <;> simp [h]
  · exact syncUsage_saved_spec src db.rpt_usage wms.usage b now faults.usageFetch
      faults.usageWrite

/-! ## C5 -/

/-- Everything the pagination loop returns is either carried in from the
accumulator or is a row of the (filtered) source table. -/
theorem fetchAllGo_mem {R : Type} (rows : List R) (b : Nat) (mr : Option Nat) :
    ∀ (fuel off : Nat) (acc : List R) (x : R),
      x ∈ fetchAllGo rows b mr fuel off acc → x ∈ acc ∨ x ∈ rows := by
  intro fuel
  induction fuel with
  | zero =>
    intro off acc x h
    simp only [fetchAllGo] at h
    exact Or.inl h
  | succ fuel ih =>
    intro off acc x h
    simp only [fetchAllGo] at h
    have hpage : ∀ y : R, y ∈ (rows.drop off).take b → y ∈ rows := fun y hy =>
      List.drop_subset off rows (List.take_subset b (rows.drop off) hy)
    have hsplit : x ∈ acc ++ (rows.drop off).take b → x ∈ acc ∨ x ∈ rows := fun hx =>
      (List.mem_append.mp hx).imp id (hpage x)
    split at h
    · exact hsplit h
    · split at h
      · exact hsplit h
      · split at h
        · exact hsplit h
        · split at h
          · exact hsplit h
          · rcases ih _ _ _ h with hacc | hrows
            · exact hsplit hacc
            · exact Or.inr hrows

/-- Everything `fetchAll` returns passed the server-side watermark filter. -/
theorem fetchAll_mem {R : Type} (rows : List R) (wmKey : R → Option Nat)
    (wm : Option Nat) (b : Nat) (mr : Option Nat) (x : R)
    (h : x ∈ fetchAll rows wmKey wm b mr) : x ∈ serverFilter wmKey wm rows := by
  unfold fetchAll at h
  rcases fetchAllGo_mem (serverFilter wmKey wm rows) b mr _ 0 [] x h with hacc | hrows
  · simp at hacc
  · exact hrows

/-- A row that passed the `gt.{watermark}` filter has a watermark-column
value strictly above the cursor. -/
theorem serverFilter_mem_lt {R : Type} (wmKey : R → Option Nat) (w : Nat)
    (rows : List R) (x : R) (h : x ∈ serverFilter wmKey (some w) rows) :
    ∃ c, wmKey x = some c ∧ w < c := by
  simp only [serverFilter] at h
  have hp := (List.mem_filter.mp h).2
  cases hk : wmKey x with
  | none => rw [hk] at hp; simp at hp
  | some c =>
    rw [hk] at hp
    exact ⟨c, rfl, of_decide_eq_true hp⟩

/-- The watermark `syncUsage` saves is strictly above the cursor the fetch
was filtered on. -/
theorem usageFetch_lastCreated_gt (src : SourceDb) (b ow w : Nat)
    (h : (usageFetch src (some ow) b).getLast?.bind (fun r => r.created_at) = some w) :
    ow < w := by
  cases hl : (usageFetch src (some ow) b).getLast? with
  | none => rw [hl] at h; simp at h
  | some lastRecord =>
    rw [hl] at h
    simp only [Option.some_bind] at h
    have hmem : lastRecord ∈ usageFetch src (some ow) b :=
      List.mem_of_mem_getLast? hl
    have hfil := fetchAll_mem _ _ _ _ _ _ hmem
    rcases serverFilter_mem_lt _ ow _ _ hfil with ⟨c, hc, hlt⟩
    rw [hc] at h
    cases h
    exact hlt

/-- `wmLe` is reflexive. -/
theorem wmLe_refl (a : Option Nat) : wmLe a a := by
  cases a with
  | none => trivial
  | some x => exact Nat.le_refl x

/-- C5: across one run, every stored watermark is monotonically
non-decreasing — provided the wall clock itself did not run backwards past a
stored cursor (`wmLe _ (some now)`), which holds for the three tables whose
cursors are wall-clock values of earlier runs; the usage cursor needs no
clock assumption because its new value comes from a record that passed the
strictly-greater watermark filter. A failed sync, or one that synced zero
records, leaves that table's watermark unchanged (remaining conjuncts). -/
theorem watermark_monotonicity (src : SourceDb) (db : ReportDb) (wms : Watermarks)
    (b now : Nat) (faults : FaultModel)
    (hep : wmLe wms.endpoints (some now)) (hin : wmLe wms.instances (some now))
    (hbn : wmLe wms.bundles (some now)) :
    (wmLe wms.endpoints (scheduled src db wms b now none faults).watermarks.endpoints ∧
     wmLe wms.instances (scheduled src db wms b now none faults).watermarks.instances ∧
     wmLe wms.bundles (scheduled src db wms b now none faults).watermarks.bundles ∧
     wmLe wms.usage (scheduled src db wms b now none faults).watermarks.usage) ∧
    (((syncEndpoints src db.rpt_endpoints wms.endpoints b now
          faults.endpointsFetch faults.endpointsWrite).2.error ≠ none ∨
      (syncEndpoints src db.rpt_endpoints wms.endpoints b now
          faults.endpointsFetch faults.endpointsWrite).2.recordsSynced = 0) →
      (scheduled src db wms b now none faults).watermarks.endpoints = wms.endpoints) ∧
    (((syncInstances src db.rpt_bundle_instances wms.instances b now
          faults.instancesFetch faults.instancesWrite).2.error ≠ none ∨
      (syncInstances src db.rpt_bundle_instances wms.instances b now
          faults.instancesFetch faults.instancesWrite).2.recordsSynced = 0) →
      (scheduled src db wms b now none faults).watermarks.instances = wms.instances) ∧
    (((syncBundles src db.rpt_bundles wms.bundles b now
          faults.bundlesFetch faults.bundlesWrite).2.error ≠ none ∨
      (syncBundles src db.rpt_bundles wms.bundles b now
          faults.bundlesFetch faults.bundlesWrite).2.recordsSynced = 0) →
      (scheduled src db wms b now none faults).watermarks.bundles = wms.bundles) ∧
    (((syncUsage src db.rpt_usage wms.usage b now faults.usageFetch
          faults.usageWrite).2.1.error ≠ none ∨
      (syncUsage src db.rpt_usage wms.usage b now faults.usageFetch
          faults.usageWrite).2.1.recordsSynced = 0) →
      (scheduled src db wms b now none faults).watermarks.usage = wms.usage) := by
  have husage := syncUsage_saved_spec src db.rpt_usage wms.usage b now
    faults.usageFetch faults.usageWrite
  refine ⟨⟨?_, ?_, ?_, ?_⟩, ?_, ?_, ?_, ?_⟩
  · show wmLe wms.endpoints (if _ then some now else wms.endpoints)
    split
    · exact hep
    · exact wmLe_refl _
  · show wmLe wms.instances (if _ then some now else wms.instances)
    split
    · exact hin
    · exact wmLe_refl _
  · show wmLe wms.bundles (if _ then some now else wms.bundles)
    split
    · exact hbn
    · exact wmLe_refl _
  · show wmLe wms.usage ((syncUsage src db.rpt_usage wms.usage b now faults.usageFetch
      faults.usageWrite).2.2.foldl (fun _ v => some v) wms.usage)
    rcases husage with hnil | ⟨w, hw, hlast, _, _⟩
    · rw [hnil]
      exact wmLe_refl _
    · rw [hw]
      simp only [List.foldl_cons, List.foldl_nil]
      cases how : wms.usage with
      | none => trivial
      | some ow =>
        rw [how] at hlast
        exact Nat.le_of_lt (usageFetch_lastCreated_gt src b ow w hlast)
  · intro h
    show (if _ then some now else wms.endpoints) = wms.endpoints
    rw [if_neg]
    rintro ⟨he, hc⟩
    rcases h with h | h
    · exact h he
    · omega
  · intro h
    show (if _ then some now else wms.instances) = wms.instances
    rw [if_neg]
    rintro ⟨he, hc⟩
    rcases h with h | h
    · exact h he
    · omega
  · intro h
    show (if _ then some now else wms.bundles) = wms.bundles
    rw [if_neg]
    rintro ⟨he, hc⟩
    rcases h with h | h
    · exact h he
    · omega
  · intro h
    show ((syncUsage src db.rpt_usage wms.usage b now faults.usageFetch
      faults.usageWrite).2.2.foldl (fun _ v => some v) wms.usage) = wms.usage
    rcases husage with hnil | ⟨w, hw, _, herr, hpos⟩
    · rw [hnil]
      rfl
    · rcases h with h | h
      · exact absurd herr h
      · omega

/-- C5 witness: the monotonicity theorem applied to `c5Src` at `now = 100`
with stored watermarks `40`/`50`. -/
theorem watermark_monotonicity_witness :
    wmLe c5Watermarks.endpoints
      (scheduled c5Src emptyReportDb c5Watermarks 1000 100 none
        noFaults).watermarks.endpoints ∧
    wmLe c5Watermarks.usage
      (scheduled c5Src emptyReportDb c5Watermarks 1000 100 none
        noFaults).watermarks.usage :=
  ⟨(watermark_monotonicity c5Src emptyReportDb c5Watermarks 1000 100 noFaults
      (by show (50 : Nat) ≤ 100; omega) (by show (40 : Nat) ≤ 100; omega)
      (by show (40 : Nat) ≤ 100; omega)).1.1,
   (watermark_monotonicity c5Src emptyReportDb c5Watermarks 1000 100 noFaults
      (by show (50 : Nat) ≤ 100; omega) (by show (40 : Nat) ≤ 100; omega)
      (by show (40 : Nat) ≤ 100; omega)).1.2.2.2⟩

/-! ## C7 -/

/-- The persisted run status is `success` exactly when no table's
`SyncResult` carries an error, `partial` otherwise. -/
theorem status_of_results (results : List SyncResult) :
    (if (results.filter (fun r => r.error.isSome)).length ≠ 0 then "partial"
     else "success") =
      (if results.all (fun r => r.error.isNone) then "success" else "partial") := by
  by_cases h : results.all (fun r => r.error.isNone) = true
  · rw [if_pos h, if_neg]
    simp only [ne_eq, Decidable.not_not, List.length_eq_zero, List.filter_eq_nil_iff]
    intro a ha
    have ha2 := List.all_eq_true.mp h a ha
    simp only [Option.isNone_iff_eq_none] at ha2
    simp [ha2]
  · rw [if_neg h, if_pos]
    simp only [List.all_eq_true] at h
    push_neg at h
    obtain ⟨a, ha, hne⟩ := h
    have hmem : a ∈ results.filter (fun r => r.error.isSome) :=
      List.mem_filter.mpr ⟨ha, by
        revert hne
        cases a.error <;> simp⟩
    have hnil : results.filter (fun r => r.error.isSome) ≠ [] :=
      List.ne_nil_of_mem hmem
    exact fun h0 => hnil (List.length_eq_zero.mp h0)

/-- C7: a table pipeline failure is caught and recorded in that table's
`SyncResult` (final four conjuncts, shown for the `FetchError` injection)
without removing any table from the run — the results list always carries
all four tables in order — and the backfill and view refresh are invoked
unconditionally after them; the persisted status is `partial` exactly when
some table failed and `success` when none did, while `failed` (with no
backfill) occurs only for a setup-level failure. -/
theorem failure_isolation (src : SourceDb) (db : ReportDb) (wms : Watermarks)
    (b now : Nat) (faults : FaultModel) (msg : String) :
    (scheduled src db wms b now (some msg) faults).status = "failed" ∧
    (scheduled src db wms b now (some msg) faults).backfillInvoked = false ∧
    (scheduled src db wms b now none faults).results =
      [(syncEndpoints src db.rpt_endpoints wms.endpoints b now
          faults.endpointsFetch faults.endpointsWrite).2,
       (syncInstances src db.rpt_bundle_instances wms.instances b now
          faults.instancesFetch faults.instancesWrite).2,
       (syncUsage src db.rpt_usage wms.usage b now faults.usageFetch
          faults.usageWrite).2.1,
       (syncBundles src db.rpt_bundles wms.bundles b now
          faults.bundlesFetch faults.bundlesWrite).2] ∧
    (scheduled src db wms b now none faults).backfillInvoked = true ∧
    (scheduled src db wms b now none faults).refreshInvoked = true ∧
    ((scheduled src db wms b now none faults).status =
      if (scheduled src db wms b now none faults).results.all
        (fun r => r.error.isNone) then "success" else "partial") ∧
    (scheduled src db wms b now none faults).status ≠ "failed" ∧
    (faults.endpointsFetch = some msg →
      (scheduled src db wms b now none faults).results[0]? =
        some ⟨"rpt_endpoints", 0, 0, some msg⟩) ∧
    (faults.instancesFetch = some msg →
      (scheduled src db wms b now none faults).results[1]? =
        some ⟨"rpt_bundle_instances", 0, 0, some msg⟩) ∧
    (faults.usageFetch = some msg →
      (scheduled src db wms b now none faults).results[2]? =
        some ⟨"rpt_usage", 0, 0, some msg⟩) ∧
    (faults.bundlesFetch = some msg →
      (scheduled src db wms b now none faults).results[3]? =
        some ⟨"rpt_bundles", 0, 0, some msg⟩) := by
  refine ⟨rfl, rfl, rfl, rfl, rfl, status_of_results _, ?_, ?_, ?_, ?_, ?_⟩
  · show (if _ ≠ 0 then "partial" else "success") ≠ "failed"
    split <;> decide
  · intro h
    show some (syncEndpoints src db.rpt_endpoints wms.endpoints b now
      faults.endpointsFetch faults.endpointsWrite).2 =
      some ⟨"rpt_endpoints", 0, 0, some msg⟩
    rw [h]
    rfl
  · intro h
    show some (syncInstances src db.rpt_bundle_instances wms.instances b now
      faults.instancesFetch faults.instancesWrite).2 =
      some ⟨"rpt_bundle_instances", 0, 0, some msg⟩
    rw [h]
    rfl
  · intro h
    show some (syncUsage src db.rpt_usage wms.usage b now faults.usageFetch
      faults.usageWrite).2.1 = some ⟨"rpt_usage", 0, 0, some msg⟩
    rw [h]
    rfl
  · intro h
    show some (syncBundles src db.rpt_bundles wms.bundles b now
      faults.bundlesFetch faults.bundlesWrite).2 =
      some ⟨"rpt_bundles", 0, 0, some msg⟩
    rw [h]
    rfl

/-- C7 witness: with the endpoints fetch throwing on `c5Src`, the failure is
recorded in the endpoints `SyncResult` of an otherwise completed run. -/
theorem failure_isolation_witness :
    (scheduled c5Src emptyReportDb c5Watermarks 1000 100 none c7Faults).results[0]? =
      some ⟨"rpt_endpoints", 0, 0, some "fetch endpoints failed (500)"⟩ :=
  (failure_isolation c5Src emptyReportDb c5Watermarks 1000 100 c7Faults
    "fetch endpoints failed (500)").2.2.2.2.2.2.2.1 rfl
